import Mathlib

/-!
Shallow embedding of the CHIP-8 core from `src/cpu.rs` and
`src/keyboard.rs` of the rheasan/chip8 repository.

Machine integers are modelled as `Nat` with explicit wrap-around
(`% 256`, `% 65536`) exactly where the Rust types (`u8`, `u16`) wrap.
Byte arrays (`mem`, the display buffer, the sixteen registers) are
modelled as functions `Nat → Nat` together with the fixed array sizes
from the source (8192, 64*32, 16); every indexing operation of the
source that can panic (slice or index out of bounds) is modelled by an
explicit bounds test, with `none` as the result of a Rust panic.
Wall-clock time (`Instant`) and the random generator are modelled as
oracle inputs in `Env`: `delay_elapsed` / `sound_elapsed` stand for the
test `now - last_tick >= 1/60 s` of `Cpu::handle_timer`, `random_byte`
for `rand::random::<u8>()`, and `key` for
`KeyBoard::get_current_key()`.  The `debug` flag of the source only
gates `println!` logging and is dropped; the `Instant` halves of the
timer pairs carry no observable value and are dropped as well.
-/

namespace Chip8

/-- MAX_PROGRAM_SIZE from src/cpu.rs (the source comment computes
0x2000 - 0x200 but the constant is 7860). -/
def MAX_PROGRAM_SIZE : Nat := 7860

/-- WIDTH of the display, from src/cpu.rs. -/
def WIDTH : Nat := 64

/-- HEIGHT of the display, from src/cpu.rs. -/
def HEIGHT : Nat := 32

/-- Size of the memory vector allocated in Cpu::init: vec![0; 8192]. -/
def MEM_SIZE : Nat := 8192

/-- HEX_SPRITE_SIZE from src/cpu.rs. -/
def HEX_SPRITE_SIZE : Nat := 5

/-- Concatenation of the sixteen 5-byte font sprites ZERO..F exactly as
listed in src/cpu.rs (including the duplicated glyphs for 5/6 and 8/9). -/
def FONT : List Nat :=
  [0xf0, 0x90, 0x90, 0x90, 0xf0,
   0x20, 0x60, 0x20, 0x20, 0x70,
   0xf0, 0x10, 0xf0, 0x80, 0xf0,
   0xf0, 0x10, 0xf0, 0x10, 0xf0,
   0xf0, 0x80, 0xf0, 0x10, 0xf0,
   0xf0, 0x80, 0xf0, 0x90, 0xf0,
   0xf0, 0x80, 0xf0, 0x90, 0xf0,
   0xf0, 0x10, 0x20, 0x40, 0x40,
   0xf0, 0x90, 0xf0, 0x10, 0xf0,
   0xf0, 0x90, 0xf0, 0x10, 0xf0,
   0xf0, 0x90, 0xf0, 0x90, 0x90,
   0xe0, 0x90, 0xe0, 0x90, 0xe0,
   0xf0, 0x80, 0x80, 0x80, 0xf0,
   0xe0, 0x90, 0x90, 0x90, 0xe0,
   0xf0, 0x80, 0xf0, 0x80, 0xf0,
   0xf0, 0x80, 0xf0, 0x80, 0x80]

/-- The Cpu state of src/cpu.rs.  `mem`, `d_buffer` and `gp_registers`
are byte arrays of fixed sizes MEM_SIZE, WIDTH*HEIGHT and 16; the Rust
call stack is a Vec whose back is the top, modelled as a list whose
head is the top. -/
structure Cpu where
  mem : Nat → Nat
  d_buffer : Nat → Nat
  gp_registers : Nat → Nat
  i : Nat
  pc : Nat
  sp : Nat
  stack : List Nat
  delay_timer : Nat
  sound_timer : Nat
  program_end_addr : Nat

/-- ExecuteError from src/cpu.rs. -/
inductive ExecuteError where
  | failedToReadInstruction
  | badInstruction (instr : Nat)
  | maxCallDepthReached (instr : Nat)
  | badReturn (instr : Nat)
  | badJumpAddr (instr : Nat)
deriving DecidableEq

/-- Oracle inputs consumed during one step: the keyboard snapshot read
by KeyBoard::get_current_key, the byte produced by rand::random, and
the two elapsed-1/60-s tests made by Cpu::handle_timer. -/
structure Env where
  key : Option Nat
  random_byte : Nat
  delay_elapsed : Bool
  sound_elapsed : Bool

/-- Pointwise update of a byte array, the effect of `arr[idx] = v`. -/
def setByte (f : Nat → Nat) (idx v : Nat) : Nat → Nat :=
  fun k => if k = idx then v else f k

/-- Wrapping u8 addition. -/
def wrappingAdd8 (a b : Nat) : Nat := (a + b) % 256

/-- Wrapping u8 subtraction. -/
def wrappingSub8 (a b : Nat) : Nat := (a + 256 - b % 256) % 256

/-- Memory of a fresh Cpu: the font table in the first 80 bytes
(cpu.mem[0..sprites.len()].copy_from_slice(&sprites)), zero elsewhere. -/
def initMem : Nat → Nat := fun a => FONT.getD a 0

/-- Cpu::init from src/cpu.rs (the `debug` argument only gates logging
and is dropped). -/
def Cpu.init : Cpu where
  mem := initMem
  d_buffer := fun _ => 0
  gp_registers := fun _ => 0
  i := 0
  pc := 0x200
  sp := 0
  stack := []
  delay_timer := 0
  sound_timer := 0
  program_end_addr := 0

/-- Cpu::add_program from src/cpu.rs.  `some (.error ())` is the
io::Error return for oversized programs, `none` is a Rust panic: the
slice self.mem[512..(len + 512)] is out of bounds when 512 + len
exceeds MEM_SIZE. -/
def add_program (c : Cpu) (program : List Nat) : Option (Except Unit Cpu) :=
  if program.length > MAX_PROGRAM_SIZE then
    some (.error ())
  else if 512 + program.length ≤ MEM_SIZE then
    some (.ok { c with
      mem := fun a =>
        if 512 ≤ a ∧ a < 512 + program.length then program.getD (a - 512) 0
        else c.mem a,
      program_end_addr := 0x200 + program.length })
  else
    none

/-- Cpu::is_valid_program_addr from src/cpu.rs. -/
def is_valid_program_addr (c : Cpu) (addr : Nat) : Bool :=
  decide (0x200 ≤ addr) && decide (addr ≤ c.program_end_addr)

/-- Cpu::get_next_instruction from src/cpu.rs: two checked reads
(Vec::get) at pc and pc+1, combined big-endian.  `none` stands for the
FailedToReadInstruction error raised in the caller. -/
def get_next_instruction (c : Cpu) : Option Nat :=
  if c.pc < MEM_SIZE ∧ c.pc + 1 < MEM_SIZE then
    some ((c.mem c.pc <<< 8) ||| c.mem (c.pc + 1))
  else
    none

/-- Cpu::handle_timer from src/cpu.rs: a nonzero timer is decremented
when at least 1/60 s elapsed (the `elapsed` oracle); returns the new
value and whether a decrement happened. -/
def handle_timer (elapsed : Bool) (t : Nat) : Nat × Bool :=
  if t = 0 then (t, false)
  else if elapsed then (t - 1, true)
  else (t, false)

/-- Inner 8-iteration loop of Cpu::draw_sprite for one sprite byte.
Per iteration: index = coord_x + coord_y * WIDTH; the pixel at index is
read and xored with the top bit of `b` (both panic when the index is
out of bounds, modelled by `none`); the flag records a 1 → 0
transition; then coord_x advances and `b` is shifted left in place
(`*b <<= 1` on u8, so modulo 256).  Returns the display buffer, the
final byte value, the final coord_x and the flag. -/
def drawByte (d : Nat → Nat) (b cx cy : Nat) (flag : Bool) :
    Nat → Option ((Nat → Nat) × Nat × Nat × Bool)
  | 0 => some (d, b, cx, flag)
  | k + 1 =>
    let index := cx + cy * WIDTH
    if index < WIDTH * HEIGHT then
      let prev := d index
      let newVal := prev ^^^ ((b &&& 0x80) >>> 7)
      let d' := setByte d index newVal
      let flag' := flag || (decide (prev = 1) && decide (newVal = 0))
      drawByte d' ((b <<< 1) % 256) (cx + 1) cy flag' k
    else
      none

/-- Outer loop of Cpu::draw_sprite over the sprite bytes
mem[sprite_start..sprite_end].  The loop body shifts the memory byte in
place through the `iter_mut` reference, so after its 8 shifts the final
byte value (always 0 after `<<= 1` eight times on u8) is left behind in
memory at address `a`; coord_y then advances and coord_x resets to
x % WIDTH. -/
def drawRows (x0 : Nat) :
    Nat → Nat → Nat → (Nat → Nat) → (Nat → Nat) → Bool →
    Option ((Nat → Nat) × (Nat → Nat) × Bool)
  | 0, _, _, mem, d, flag => some (mem, d, flag)
  | rows + 1, a, cy, mem, d, flag =>
    match drawByte d (mem a) x0 cy flag 8 with
    | none => none
    | some (d', bFinal, _, flag') =>
      drawRows x0 rows (a + 1) (cy + 1) (setByte mem a bFinal) d' flag'

/-- Cpu::draw_sprite from src/cpu.rs.  The slice
self.mem[sprite_start..sprite_end] panics (`none`) when sprite_end
exceeds MEM_SIZE; starting coordinates wrap modulo WIDTH and HEIGHT;
each sprite byte is blitted by `drawByte`.  Returns the new memory
(the sprite bytes are destroyed by the in-place shifts), the new
display buffer, and the collision flag. -/
def draw_sprite (c : Cpu) (n x y : Nat) :
    Option ((Nat → Nat) × (Nat → Nat) × Bool) :=
  let sprite_start := c.i
  let sprite_end := sprite_start + n
  if sprite_end ≤ MEM_SIZE then
    drawRows (x % WIDTH) n sprite_start (y % HEIGHT) c.mem c.d_buffer false
  else
    none

/-- Cpu::step from src/cpu.rs.  `some (.ok (c, b))` is Ok(b),
`some (.error e)` is Err(e), and `none` is a Rust panic (an
out-of-bounds slice or index).  The boolean result is computed exactly
as in the source: instruction & 0xd000 == 0xd000. -/
def step (env : Env) (c : Cpu) : Option (Except ExecuteError (Cpu × Bool)) :=
  match get_next_instruction c with
  | none => some (.error .failedToReadInstruction)
  | some instruction =>
    let nnn := instruction &&& 0x0fff
    let x := (instruction &&& 0x0f00) >>> 8
    let y := (instruction &&& 0x00f0) >>> 4
    let nn := instruction &&& 0x00ff
    let n := instruction &&& 0x000f
    let st := (handle_timer env.sound_elapsed c.sound_timer).1
    let dt := (handle_timer env.delay_elapsed c.delay_timer).1
    let c := { c with sound_timer := st, delay_timer := dt }
    let ret : Bool := instruction &&& 0xd000 == 0xd000
    if instruction &&& 0xf000 = 0x0000 then
      if (instruction &&& 0x0f00) >>> 8 ≠ 0 then
        -- 0NNN: machine language subroutine, ignored
        some (.ok ({ c with pc := c.pc + 2 }, ret))
      else if instruction &&& 0x00ff = 0xe0 then
        -- 00E0: clear the screen
        some (.ok ({ c with d_buffer := fun _ => 0, pc := c.pc + 2 }, ret))
      else if instruction &&& 0x00ff = 0xee then
        -- 00EE: return from a subroutine
        match c.stack with
        | [] => some (.error (.badReturn instruction))
        | addr :: rest =>
          if is_valid_program_addr c addr then
            some (.ok ({ c with stack := rest, pc := addr + 2 }, ret))
          else
            some (.error (.badJumpAddr instruction))
      else
        some (.error (.badInstruction instruction))
    else if instruction &&& 0xf000 = 0x1000 then
      -- 1NNN: jump
      if is_valid_program_addr c nnn then
        some (.ok ({ c with pc := nnn }, ret))
      else
        some (.error (.badJumpAddr instruction))
    else if instruction &&& 0xf000 = 0x2000 then
      -- 2NNN: call
      if c.stack.length = 16 then
        some (.error (.maxCallDepthReached instruction))
      else
        some (.ok ({ c with stack := c.pc :: c.stack, pc := nnn }, ret))
    else if instruction &&& 0xf000 = 0x3000 then
      -- 3XNN: skip if VX == NN
      let pc1 := if c.gp_registers x = nn then c.pc + 2 else c.pc
      some (.ok ({ c with pc := pc1 + 2 }, ret))
    else if instruction &&& 0xf000 = 0x4000 then
      -- 4XNN: skip if VX != NN
      let pc1 := if c.gp_registers x ≠ nn then c.pc + 2 else c.pc
      some (.ok ({ c with pc := pc1 + 2 }, ret))
    else if instruction &&& 0xf000 = 0x5000 then
      if instruction &&& 0x000f ≠ 0 then
        some (.error (.badInstruction instruction))
      else
        -- 5XY0: skip if VX == VY
        let pc1 := if c.gp_registers x = c.gp_registers y then c.pc + 2 else c.pc
        some (.ok ({ c with pc := pc1 + 2 }, ret))
    else if instruction &&& 0xf000 = 0x6000 then
      -- 6XNN: VX := NN
      some (.ok ({ c with gp_registers := setByte c.gp_registers x nn,
                          pc := c.pc + 2 }, ret))
    else if instruction &&& 0xf000 = 0x7000 then
      -- 7XNN: VX := VX + NN (wrapping)
      some (.ok ({ c with
        gp_registers := setByte c.gp_registers x (wrappingAdd8 (c.gp_registers x) nn),
        pc := c.pc + 2 }, ret))
    else if instruction &&& 0xf000 = 0x8000 then
      if n = 0x0 then
        some (.ok ({ c with gp_registers := setByte c.gp_registers x (c.gp_registers y),
                            pc := c.pc + 2 }, ret))
      else if n = 0x1 then
        some (.ok ({ c with
          gp_registers := setByte c.gp_registers x (c.gp_registers x ||| c.gp_registers y),
          pc := c.pc + 2 }, ret))
      else if n = 0x2 then
        some (.ok ({ c with
          gp_registers := setByte c.gp_registers x (c.gp_registers x &&& c.gp_registers y),
          pc := c.pc + 2 }, ret))
      else if n = 0x3 then
        some (.ok ({ c with
          gp_registers := setByte c.gp_registers x (c.gp_registers x ^^^ c.gp_registers y),
          pc := c.pc + 2 }, ret))
      else if n = 0x4 then
        -- 8XY4: checked_add; on Some the result then VF := 0 are stored,
        -- on None the wrapped sum then VF := 1.
        let r :=
          if c.gp_registers x + c.gp_registers y ≤ 255 then
            setByte (setByte c.gp_registers x (c.gp_registers x + c.gp_registers y)) 0xf 0
          else
            setByte (setByte c.gp_registers x
              ((c.gp_registers x + c.gp_registers y) &&& 0xFF)) 0xf 1
        some (.ok ({ c with gp_registers := r, pc := c.pc + 2 }, ret))
      else if n = 0x5 then
        -- 8XY5: VF is written first, then VX := VX - VY reading the
        -- registers after that write.
        let r1 := setByte c.gp_registers 0xf
          (if c.gp_registers y ≤ c.gp_registers x then 0x1 else 0x0)
        let r2 := setByte r1 x (wrappingSub8 (r1 x) (r1 y))
        some (.ok ({ c with gp_registers := r2, pc := c.pc + 2 }, ret))
      else if n = 0x6 then
        -- 8XY6: VF := VY & 1 first, then VX := VY >> 1 reading VY after
        -- that write.
        let r1 := setByte c.gp_registers 0xf (c.gp_registers y &&& 0x1)
        let r2 := setByte r1 x (r1 y >>> 1)
        some (.ok ({ c with gp_registers := r2, pc := c.pc + 2 }, ret))
      else if n = 0x7 then
        -- 8XY7: VX := VY - VX first, then VF from a comparison of the
        -- updated registers.
        let r1 := setByte c.gp_registers x (wrappingSub8 (c.gp_registers y) (c.gp_registers x))
        let r2 := setByte r1 0xf (if r1 x ≤ r1 y then 0x1 else 0x0)
        some (.ok ({ c with gp_registers := r2, pc := c.pc + 2 }, ret))
      else if n = 0xE then
        -- 8XYE: VF := top bit of VY first, then VX := VY << 1 reading VY
        -- after that write.
        let r1 := setByte c.gp_registers 0xf ((c.gp_registers y &&& 0x80) >>> 7)
        let r2 := setByte r1 x ((r1 y <<< 1) % 256)
        some (.ok ({ c with gp_registers := r2, pc := c.pc + 2 }, ret))
      else
        some (.error (.badInstruction instruction))
    else if instruction &&& 0xf000 = 0x9000 then
      if instruction &&& 0x000f ≠ 0 then
        some (.error (.badInstruction instruction))
      else
        -- 9XY0: skip if VX != VY
        let pc1 := if c.gp_registers x ≠ c.gp_registers y then c.pc + 2 else c.pc
        some (.ok ({ c with pc := pc1 + 2 }, ret))
    else if instruction &&& 0xf000 = 0xa000 then
      -- ANNN: I := NNN
      some (.ok ({ c with i := nnn, pc := c.pc + 2 }, ret))
    else if instruction &&& 0xf000 = 0xb000 then
      -- BNNN: pc := V0 + NNN, then pc += 2
      some (.ok ({ c with pc := c.gp_registers 0 + nnn + 2 }, ret))
    else if instruction &&& 0xf000 = 0xc000 then
      -- CXNN: VX := random & NN
      some (.ok ({ c with gp_registers := setByte c.gp_registers x (env.random_byte &&& nn),
                          pc := c.pc + 2 }, ret))
    else if instruction &&& 0xf000 = 0xd000 then
      -- DXYN: draw sprite, then VF := collision flag
      match draw_sprite c n (c.gp_registers x) (c.gp_registers y) with
      | none => none
      | some (mem', d', collided) =>
        let r := setByte c.gp_registers 0xf (if collided then 0x01 else 0x00)
        some (.ok ({ c with mem := mem', d_buffer := d', gp_registers := r,
                            pc := c.pc + 2 }, ret))
    else if instruction &&& 0xf000 = 0xe000 then
      if instruction &&& 0xff = 0x9e then
        -- EX9E: skip if key == VX; pc is untouched when a key is down
        -- but differs from VX.
        match env.key with
        | some key =>
          if key = c.gp_registers x then
            some (.ok ({ c with pc := c.pc + 4 }, ret))
          else
            some (.ok (c, ret))
        | none => some (.ok ({ c with pc := c.pc + 2 }, ret))
      else if instruction &&& 0xff = 0xa1 then
        -- EXA1: skip if key != VX; pc is untouched when the key equals VX.
        match env.key with
        | some key =>
          if key ≠ c.gp_registers x then
            some (.ok ({ c with pc := c.pc + 4 }, ret))
          else
            some (.ok (c, ret))
        | none => some (.ok ({ c with pc := c.pc + 2 }, ret))
      else
        some (.error (.badInstruction instruction))
    else if instruction &&& 0xf000 = 0xf000 then
      if instruction &&& 0xff = 0x07 then
        -- FX07: VX := delay timer (already ticked above)
        some (.ok ({ c with gp_registers := setByte c.gp_registers x c.delay_timer,
                            pc := c.pc + 2 }, ret))
      else if instruction &&& 0xff = 0x0A then
        -- FX0A: wait for key
        match env.key with
        | some k =>
          some (.ok ({ c with gp_registers := setByte c.gp_registers x k,
                              pc := c.pc + 2 }, ret))
        | none => some (.ok (c, ret))
      else if instruction &&& 0xff = 0x15 then
        some (.ok ({ c with delay_timer := c.gp_registers x, pc := c.pc + 2 }, ret))
      else if instruction &&& 0xff = 0x18 then
        some (.ok ({ c with sound_timer := c.gp_registers x, pc := c.pc + 2 }, ret))
      else if instruction &&& 0xff = 0x1e then
        -- FX1E: I += VX (u16)
        some (.ok ({ c with i := (c.i + c.gp_registers x) % 65536, pc := c.pc + 2 }, ret))
      else if instruction &&& 0xff = 0x29 then
        if c.gp_registers x > 0xf then
          some (.error (.badInstruction instruction))
        else
          some (.ok ({ c with i := c.gp_registers x * HEX_SPRITE_SIZE,
                              pc := c.pc + 2 }, ret))
      else if instruction &&& 0xff = 0x33 then
        -- FX33: BCD store at I, I+1, I+2; the source indexes mem without
        -- a bound check (its own comment: TODO bound check).
        let addr := c.i
        if addr + 2 < MEM_SIZE then
          let vx := c.gp_registers x
          let m1 := setByte c.mem addr (vx / 100)
          let m2 := setByte m1 (addr + 1) (vx % 100 / 10)
          let m3 := setByte m2 (addr + 2) (vx % 10)
          some (.ok ({ c with mem := m3, pc := c.pc + 2 }, ret))
        else
          none
      else if instruction &&& 0xff = 0x55 then
        -- FX55: mem[I..=I+X] := V0..VX, then I += X + 1; the slice
        -- panics when I + X is past the end of memory.
        let addr := c.i
        if addr + x < MEM_SIZE then
          some (.ok ({ c with
            mem := fun k =>
              if addr ≤ k ∧ k < addr + x + 1 then c.gp_registers (k - addr)
              else c.mem k,
            i := (c.i + (x + 1)) % 65536,
            pc := c.pc + 2 }, ret))
        else
          none
      else if instruction &&& 0xff = 0x65 then
        -- FX65: V0..VX := mem[I..=I+X], then I += X + 1; the slice
        -- panics when I + X is past the end of memory.
        let addr := c.i
        if addr + x < MEM_SIZE then
          some (.ok ({ c with
            gp_registers := fun j =>
              if j < x + 1 then c.mem (addr + j) else c.gp_registers j,
            i := (c.i + (x + 1)) % 65536,
            pc := c.pc + 2 }, ret))
        else
          none
      else
        some (.error (.badInstruction instruction))
    else
      some (.error (.badInstruction instruction))

/-- Run `n` consecutive steps, stopping at the first error (the outer
loop of src/chip8.rs stops calling step after an Err) or at a panic. -/
def runN (envs : Nat → Env) : Nat → Cpu → Option (Except ExecuteError Cpu)
  | 0, c => some (.ok c)
  | k + 1, c =>
    match step (envs k) c with
    | some (.ok (c', _)) => runN envs k c'
    | some (.error e) => some (.error e)
    | none => none

/-- Observation: the pc of a successful step result. -/
def pcAfter (r : Option (Except ExecuteError (Cpu × Bool))) : Option Nat :=
  match r with
  | some (.ok (c, _)) => some c.pc
  | _ => none

/-- Observation: one register of a successful step result. -/
def regAfter (r : Option (Except ExecuteError (Cpu × Bool))) (idx : Nat) : Option Nat :=
  match r with
  | some (.ok (c, _)) => some (c.gp_registers idx)
  | _ => none

/-- Observation: one memory byte of a successful step result. -/
def memAfter (r : Option (Except ExecuteError (Cpu × Bool))) (a : Nat) : Option Nat :=
  match r with
  | some (.ok (c, _)) => some (c.mem a)
  | _ => none

/-- Observation: one display-buffer cell of a successful step result. -/
def pixAfter (r : Option (Except ExecuteError (Cpu × Bool))) (idx : Nat) : Option Nat :=
  match r with
  | some (.ok (c, _)) => some (c.d_buffer idx)
  | _ => none

/-- Observation: the redraw boolean of a successful step result. -/
def redrawAfter (r : Option (Except ExecuteError (Cpu × Bool))) : Option Bool :=
  match r with
  | some (.ok (_, b)) => some b
  | _ => none

/-- Observation: the state reached by a successful step, with a default
for the other cases. -/
def cpuAfter (r : Option (Except ExecuteError (Cpu × Bool))) (dflt : Cpu) : Cpu :=
  match r with
  | some (.ok (c, _)) => c
  | _ => dflt

/-- Observation: whether add_program returned Ok. -/
def addProgramOk (r : Option (Except Unit Cpu)) : Bool :=
  match r with
  | some (.ok _) => true
  | _ => false

/-- Observation: pc of a successful run result. -/
def pcOfRun (r : Option (Except ExecuteError Cpu)) : Option Nat :=
  match r with
  | some (.ok c) => some c.pc
  | _ => none

/-- The state produced by loading a program into a fresh Cpu, with the
fresh Cpu as a default for the failure cases. -/
def loadOrInit (program : List Nat) : Cpu :=
  match add_program Cpu.init program with
  | some (.ok c) => c
  | _ => Cpu.init

/-- An environment with no key pressed and no timer threshold elapsed. -/
def env0 : Env where
  key := none
  random_byte := 0
  delay_elapsed := false
  sound_elapsed := false

/-! Concrete states used by the counterexample and failing-input
theorems. -/

/-- A freshly loaded FX33 instruction with I = 8190: the BCD store
would write mem[8190..=8192] and memory has 8192 bytes. -/
def fx33State : Cpu := { loadOrInit [0xF0, 0x33] with i := 8190 }

/-- A freshly loaded D001 instruction with the default I = 0: the draw
reads the one-byte sprite at mem[0], the first font byte 0xF0. -/
def drawFontState : Cpu := loadOrInit [0xD0, 0x01]

/-- The clipping scenario of the spec: a one-byte sprite 0xFF at
mem[0x202], V[0] = 62, V[1] = 0, instruction D011. -/
def clipState : Cpu :=
  { loadOrInit [0xD0, 0x11, 0xFF] with
    gp_registers := setByte (fun _ => 0) 0 62, i := 0x202 }

/-- A freshly loaded FX07 instruction (top nibble F, not D). -/
def fx07State : Cpu := loadOrInit [0xF0, 0x07]

/-- A freshly loaded two-byte program whose single instruction jumps to
0x202, one past the last program byte. -/
def jumpPastEndState : Cpu := loadOrInit [0x12, 0x02]

/-- A freshly loaded 8F06 instruction (SHR with X = F, Y = 0) with
V[0] = 2. -/
def shrIntoVFState : Cpu :=
  { loadOrInit [0x8F, 0x06] with gp_registers := setByte (fun _ => 0) 0 2 }

/-- A freshly loaded program 60FF BFFF: V[0] := 0xFF, then BNNN with
NNN = 0xFFF. -/
def bnnnState : Cpu := loadOrInit [0x60, 0xFF, 0xBF, 0xFF]

/-- All sixteen registers hold u8 values. -/
def RegsOk (r : Nat → Nat) : Prop := ∀ idx, r idx < 256

/-- All memory cells hold u8 values. -/
def MemOk (m : Nat → Nat) : Prop := ∀ a, m a < 256

/-- The machine invariant: byte-sized registers, byte-sized memory,
pc at most 8194 (one skip past the last fetchable address 8190),
call stack of depth at most 16, recorded program end inside memory,
byte-sized timers. -/
def Inv (c : Cpu) : Prop :=
  RegsOk c.gp_registers ∧ MemOk c.mem ∧ c.pc ≤ 8194 ∧
  c.stack.length ≤ 16 ∧ c.program_end_addr ≤ 8192 ∧
  c.delay_timer < 256 ∧ c.sound_timer < 256

/-- The keyboard only ever reports u8 key values (its Rust type). -/
def EnvOk (e : Env) : Prop := ∀ k, e.key = some k → k < 256

/-- Memory for the C9 witness: F155 (store V0..V1) at 0x200, then F165
(load V0..V1) at 0x202, on top of a fresh memory. -/
def c9mem : Nat → Nat := fun a =>
  if a = 0x200 then 0xF1 else if a = 0x201 then 0x55
  else if a = 0x202 then 0xF1 else if a = 0x203 then 0x65 else initMem a

/-- Registers for the C9 witness: V0 = 11, V1 = 22, rest zero. -/
def c9regs : Nat → Nat := fun j => if j = 0 then 11 else if j = 1 then 22 else 0

/-- First state of the C9 witness: about to execute F155 with I = 0x300. -/
def c9s : Cpu := { Cpu.init with mem := c9mem, i := 0x300, gp_registers := c9regs }

/-- State after the F155 store of the C9 witness. -/
def c9s1 : Cpu := cpuAfter (step env0 c9s) Cpu.init

/-- Second state of the C9 witness: registers overwritten with zeros and
I restored to 0x300, about to execute F165. -/
def c9s2 : Cpu := { c9s1 with gp_registers := fun _ => 0, i := 0x300 }

/-- State after the F165 load of the C9 witness. -/
def c9s3 : Cpu := cpuAfter (step env0 c9s2) Cpu.init

/-- Observation: the state of a successful run result, with a default
for the other cases. -/
def cpuOfRun (r : Option (Except ExecuteError Cpu)) (dflt : Cpu) : Cpu :=
  match r with
  | some (.ok c) => c
  | _ => dflt

/-- C1: step is not total and its accesses are not all in bounds: on
the FX33 instruction with I = 8190 the source indexes mem[8192] out of
bounds (a Rust panic, `none` in the model) instead of returning Ok or
one of the five errors. -/
theorem C1_fx33_out_of_bounds : step env0 fx33State = none := by
  rfl

/-- C2: DXYN does not leave memory unchanged: executing D001 with I = 0
turns the first font byte mem[0] from 0xF0 into 0, because draw_sprite
shifts the sprite bytes in place through its iter_mut reference. -/
theorem C2_draw_zeroes_font :
    drawFontState.mem 0 = 0xF0 ∧
    memAfter (step env0 drawFontState) 0 = some 0 := by
  constructor <;> rfl

/-- C3: the blit does not clip at the right edge: drawing the one-byte
sprite 0xFF at V[X] = 62, V[Y] = 0 sets pixels (62,0) and (63,0) but
also sets cells 64..69 of the row-major buffer, that is columns 0..5
of row 1, contradicting the claim that columns 0 and 1 of every row
stay unchanged. -/
theorem C3_no_clipping :
    clipState.d_buffer 64 = 0 ∧
    pixAfter (step env0 clipState) 62 = some 1 ∧
    pixAfter (step env0 clipState) 63 = some 1 ∧
    pixAfter (step env0 clipState) 64 = some 1 ∧
    pixAfter (step env0 clipState) 69 = some 1 := by
  refine ⟨rfl, rfl, rfl, rfl, rfl⟩

/-- C4: step does not return true only for top nibble D: the
successfully executed FX07 instruction 0xF007 also returns true,
because the source tests instruction & 0xd000 == 0xd000, which holds
for every 0xFnnn opcode as well. -/
theorem C4_fx07_reports_redraw :
    redrawAfter (step env0 fx07State) = some true ∧
    (0xF007 : Nat) &&& 0xf000 ≠ 0xd000 := by
  constructor
  · rfl
  · decide

/-- C5 counterexample: a 3585-byte program, strictly longer than the
0xFFF - 0x200 + 1 = 3584 bytes of the claim, is accepted by
add_program. -/
theorem C5_counterexample :
    addProgramOk (add_program Cpu.init (List.replicate 3585 0)) = true := by
  unfold add_program
  rw [List.length_replicate]
  norm_num [addProgramOk, MAX_PROGRAM_SIZE, MEM_SIZE]

/-- C6 counterexample: after loading a 2-byte program the claim places
program_end at 0x201, so a jump to 0x202 should fail with BadJumpAddr;
the code records program_end_addr = 0x202 (one past the last byte) and
accepts the jump, setting pc to 0x202. -/
theorem C6_counterexample :
    jumpPastEndState.program_end_addr = 0x202 ∧
    pcAfter (step env0 jumpPastEndState) = some 0x202 := by
  constructor <;> rfl

/-- C7 counterexample: executing 8XY6 with X = F, Y = 0 and V[0] = 2
leaves VF = 1, the shift result V[0] >> 1, not the flag value
V[0] & 1 = 0: the flag is written before the main result, so for X = F
the main result wins. -/
theorem C7_counterexample :
    shrIntoVFState.gp_registers 0 &&& 1 = 0 ∧
    regAfter (step env0 shrIntoVFState) 0xf = some 1 := by
  constructor <;> rfl

/-- C8 counterexample: from the freshly loaded program 60FF BFFF, two
successful steps (V[0] := 0xFF, then BNNN with NNN = 0xFFF) leave
pc = 0xFF + 0xFFF + 2 = 4352, outside the claimed range [0, 4096). -/
theorem C8_counterexample :
    pcOfRun (runN (fun _ => env0) 2 bnnnState) = some 4352 ∧
    ¬ (4352 : Nat) < 4096 := by
  constructor
  · rfl
  · decide

/-- C10: EXA1 (SKNP VX) never skips on an empty keypad: with no key
held pc advances by exactly 2, the same no-key behavior as EX9E; and
pc advances by 4 only when some key is held whose value differs from
V[X]. -/
theorem C10_sknp_no_key :
    (∀ (s : Cpu) (env : Env) (instr : Nat),
      get_next_instruction s = some instr →
      instr &&& 0xf000 = 0xe000 →
      instr &&& 0xff = 0xa1 →
      (env.key = none → pcAfter (step env s) = some (s.pc + 2)) ∧
      (pcAfter (step env s) = some (s.pc + 4) →
        ∃ k, env.key = some k ∧
          k ≠ s.gp_registers ((instr &&& 0x0f00) >>> 8))) ∧
    (∀ (s : Cpu) (env : Env) (instr : Nat),
      get_next_instruction s = some instr →
      instr &&& 0xf000 = 0xe000 →
      instr &&& 0xff = 0x9e →
      env.key = none → pcAfter (step env s) = some (s.pc + 2)) := by
  constructor
  · intro s env instr hf hE hA1
    constructor
    · intro hkey
      unfold step
      rw [hf]
      simp only [hE, hA1, hkey]
      norm_num [pcAfter]
    · intro hskip
      unfold step at hskip
      rw [hf] at hskip
      simp only [hE, hA1] at hskip
      norm_num at hskip
      cases hkey : env.key with
      | none =>
        rw [hkey] at hskip
        simp [pcAfter] at hskip
      | some k =>
        rw [hkey] at hskip
        by_cases hne : k = s.gp_registers ((instr &&& 0x0f00) >>> 8)
        · simp [hne, pcAfter] at hskip
        · exact ⟨k, rfl, hne⟩
  · intro s env instr hf hE h9E hkey
    unfold step
    rw [hf]
    simp only [hE, h9E, hkey]
    norm_num [pcAfter]

/-- C10 witness: on a freshly loaded EXA1 instruction with no key held,
pc moves from 0x200 to 0x202. -/
theorem C10_sknp_no_key_witness :
    pcAfter (step env0 (loadOrInit [0xE0, 0xA1])) = some 0x202 :=
  (C10_sknp_no_key.1 (loadOrInit [0xE0, 0xA1]) env0 0xE0A1 rfl (by decide)
    (by decide)).1 rfl

/-- C5 amended: add_program accepts (Ok, bytes copied to 0x200..,
end address recorded as 0x200 + len) every program of length at most
7680 = MEM_SIZE - 0x200 bytes; it rejects with an error only programs
strictly longer than MAX_PROGRAM_SIZE = 7860 bytes; for lengths in
(7680, 7860] the size check passes but the copy slice is out of bounds
(a Rust panic). -/
theorem C5_add_program_amended (c : Cpu) (prog : List Nat) :
    (prog.length ≤ 7680 →
      ∃ c', add_program c prog = some (.ok c') ∧
        c'.program_end_addr = 0x200 + prog.length ∧
        (∀ a, 512 ≤ a → a < 512 + prog.length → c'.mem a = prog.getD (a - 512) 0) ∧
        (∀ a, a < 512 ∨ 512 + prog.length ≤ a → c'.mem a = c.mem a)) ∧
    (7860 < prog.length → add_program c prog = some (.error ())) ∧
    (7680 < prog.length → prog.length ≤ 7860 → add_program c prog = none) := by
  unfold add_program MAX_PROGRAM_SIZE MEM_SIZE
  refine ⟨?_, ?_, ?_⟩
  · intro hle
    rw [if_neg (by omega), if_pos (by omega)]
    refine ⟨_, rfl, rfl, ?_, ?_⟩
    · intro a h1 h2
      simp only
      rw [if_pos ⟨h1, h2⟩]
    · intro a h
      simp only
      rw [if_neg (by omega)]
  · intro hgt
    rw [if_pos (by omega)]
  · intro h1 h2
    rw [if_neg (by omega), if_neg (by omega)]

/-- C5 witness: loading the one-byte program [0xAB] succeeds, records
end address 0x201, and copies the byte to mem[0x200]. -/
theorem C5_add_program_amended_witness :
    ∃ c', add_program Cpu.init [0xAB] = some (.ok c') ∧
      c'.program_end_addr = 0x200 + ([0xAB] : List Nat).length ∧
      (∀ a, 512 ≤ a → a < 512 + ([0xAB] : List Nat).length →
        c'.mem a = ([0xAB] : List Nat).getD (a - 512) 0) ∧
      (∀ a, a < 512 ∨ 512 + ([0xAB] : List Nat).length ≤ a →
        c'.mem a = Cpu.init.mem a) :=
  (C5_add_program_amended Cpu.init [0xAB]).1 (by norm_num)

/-- C6 amended: with the recorded end address 0x200 + len (one past
the last loaded byte), 1NNN fails with BadJumpAddr exactly when NNN
lies outside [0x200, 0x200 + len] and otherwise sets pc to NNN; RET
fails with BadJumpAddr exactly when the popped address lies outside
[0x200, 0x200 + len] and otherwise sets pc to that address plus 2. -/
theorem C6_jump_bounds_amended :
    (∀ (s : Cpu) (env : Env) (len instr : Nat),
      s.program_end_addr = 0x200 + len →
      get_next_instruction s = some instr →
      instr &&& 0xf000 = 0x1000 →
      (0x200 ≤ instr &&& 0xfff ∧ instr &&& 0xfff ≤ 0x200 + len →
        pcAfter (step env s) = some (instr &&& 0xfff)) ∧
      (instr &&& 0xfff < 0x200 ∨ 0x200 + len < instr &&& 0xfff →
        step env s = some (.error (.badJumpAddr instr)))) ∧
    (∀ (s : Cpu) (env : Env) (len instr addr : Nat) (rest : List Nat),
      s.program_end_addr = 0x200 + len →
      s.stack = addr :: rest →
      get_next_instruction s = some instr →
      instr &&& 0xf000 = 0x0000 →
      (instr &&& 0x0f00) >>> 8 = 0 →
      instr &&& 0xff = 0xee →
      (0x200 ≤ addr ∧ addr ≤ 0x200 + len →
        pcAfter (step env s) = some (addr + 2)) ∧
      (addr < 0x200 ∨ 0x200 + len < addr →
        step env s = some (.error (.badJumpAddr instr)))) := by
  constructor
  · intro s env len instr hend hf h1
    constructor
    · intro ⟨hlo, hhi⟩
      unfold step
      rw [hf]
      simp only [h1]
      norm_num [is_valid_program_addr, hend, pcAfter]
      rw [if_pos ⟨hlo, hhi⟩]
    · intro hout
      unfold step
      rw [hf]
      simp only [h1]
      norm_num [is_valid_program_addr, hend]
      intro hlo hhi
      exfalso
      omega
  · intro s env len instr addr rest hend hstack hf h0 hx hee
    constructor
    · intro ⟨hlo, hhi⟩
      unfold step
      rw [hf]
      simp only [h0, hx, hee, hstack]
      norm_num [is_valid_program_addr, hend, pcAfter]
      rw [if_pos ⟨hlo, hhi⟩]
    · intro hout
      unfold step
      rw [hf]
      simp only [h0, hx, hee, hstack]
      norm_num [is_valid_program_addr, hend]
      intro hlo hhi
      exfalso
      omega

/-- C6 witness: in a freshly loaded 2-byte program whose instruction is
1NNN with NNN = 0x200, the jump is accepted and pc becomes 0x200. -/
theorem C6_jump_bounds_amended_witness :
    pcAfter (step env0 (loadOrInit [0x12, 0x00])) = some 0x200 :=
  (C6_jump_bounds_amended.1 (loadOrInit [0x12, 0x00]) env0 2 0x1200 rfl rfl
    (by decide)).1 ⟨by decide, by decide⟩

/-- Reading a byte array at the index just written. -/
theorem setByte_same (f : Nat → Nat) (idx v : Nat) : setByte f idx v idx = v := by
  simp [setByte]

/-- Reading a byte array at a different index than the one written. -/
theorem setByte_other (f : Nat → Nat) (idx v j : Nat) (h : j ≠ idx) :
    setByte f idx v j = f j := by
  simp [setByte, h]

/-- Ticking the timers does not change what draw_sprite reads. -/
theorem draw_sprite_tick (c : Cpu) (a b n x y : Nat) :
    draw_sprite { c with sound_timer := a, delay_timer := b } n x y =
    draw_sprite c n x y := rfl

/-- C7 amended: 8XY4, 8XY7 and DXYN write the VF flag after the main
result, so with X = F the final VF is the flag; 8XY5, 8XY6 and 8XYE
write the flag first and then store the main result, so with X = F
(and Y ≠ F) the final VF is the stored main result: for 8XY5 the
wrapped difference flag - V[Y] computed from the flag-overwritten VF,
for 8XY6 the shift V[Y] >> 1, for 8XYE the shift (V[Y] << 1) mod 256.
The six parts are stated in the instruction order 8XY4, 8XY5, 8XY6,
8XY7, 8XYE, DXYN. -/
theorem C7_vf_write_order_amended :
    (∀ (s : Cpu) (env : Env) (instr : Nat),
      get_next_instruction s = some instr →
      instr &&& 0xf000 = 0x8000 →
      (instr &&& 0x0f00) >>> 8 = 0xf →
      instr &&& 0xf = 0x4 →
      regAfter (step env s) 0xf =
        some (if s.gp_registers 0xf + s.gp_registers ((instr &&& 0x00f0) >>> 4) ≤ 255
              then 0 else 1)) ∧
    (∀ (s : Cpu) (env : Env) (instr : Nat),
      get_next_instruction s = some instr →
      instr &&& 0xf000 = 0x8000 →
      (instr &&& 0x0f00) >>> 8 = 0xf →
      (instr &&& 0x00f0) >>> 4 ≠ 0xf →
      instr &&& 0xf = 0x5 →
      regAfter (step env s) 0xf =
        some (wrappingSub8
          (if s.gp_registers ((instr &&& 0x00f0) >>> 4) ≤ s.gp_registers 0xf then 1 else 0)
          (s.gp_registers ((instr &&& 0x00f0) >>> 4)))) ∧
    (∀ (s : Cpu) (env : Env) (instr : Nat),
      get_next_instruction s = some instr →
      instr &&& 0xf000 = 0x8000 →
      (instr &&& 0x0f00) >>> 8 = 0xf →
      (instr &&& 0x00f0) >>> 4 ≠ 0xf →
      instr &&& 0xf = 0x6 →
      regAfter (step env s) 0xf =
        some (s.gp_registers ((instr &&& 0x00f0) >>> 4) >>> 1)) ∧
    (∀ (s : Cpu) (env : Env) (instr : Nat),
      get_next_instruction s = some instr →
      instr &&& 0xf000 = 0x8000 →
      (instr &&& 0x0f00) >>> 8 = 0xf →
      (instr &&& 0x00f0) >>> 4 ≠ 0xf →
      instr &&& 0xf = 0x7 →
      regAfter (step env s) 0xf =
        some (if wrappingSub8 (s.gp_registers ((instr &&& 0x00f0) >>> 4))
                  (s.gp_registers 0xf) ≤ s.gp_registers ((instr &&& 0x00f0) >>> 4)
              then 1 else 0)) ∧
    (∀ (s : Cpu) (env : Env) (instr : Nat),
      get_next_instruction s = some instr →
      instr &&& 0xf000 = 0x8000 →
      (instr &&& 0x0f00) >>> 8 = 0xf →
      (instr &&& 0x00f0) >>> 4 ≠ 0xf →
      instr &&& 0xf = 0xe →
      regAfter (step env s) 0xf =
        some ((s.gp_registers ((instr &&& 0x00f0) >>> 4) <<< 1) % 256)) ∧
    (∀ (s : Cpu) (env : Env) (instr : Nat) (mem' d' : Nat → Nat) (fl : Bool),
      get_next_instruction s = some instr →
      instr &&& 0xf000 = 0xd000 →
      draw_sprite s (instr &&& 0xf)
        (s.gp_registers ((instr &&& 0x0f00) >>> 8))
        (s.gp_registers ((instr &&& 0x00f0) >>> 4)) = some (mem', d', fl) →
      regAfter (step env s) 0xf = some (if fl then 1 else 0)) := by
  refine ⟨?_, ?_, ?_, ?_, ?_, ?_⟩
  · intro s env instr hf h8 hxF hn
    unfold step
    rw [hf]
    simp only [h8, hxF, hn]
    norm_num [regAfter]
    by_cases hc : s.gp_registers 0xf + s.gp_registers ((instr &&& 0x00f0) >>> 4) ≤ 255
    · rw [if_pos hc, if_pos hc]
      simp [setByte_same]
    · rw [if_neg hc, if_neg hc]
      simp [setByte_same]
  · intro s env instr hf h8 hxF hy hn
    unfold step
    rw [hf]
    simp only [h8, hxF, hn]
    norm_num [regAfter]
    rw [setByte_same, setByte_same, setByte_other _ _ _ _ hy]
  · intro s env instr hf h8 hxF hy hn
    unfold step
    rw [hf]
    simp only [h8, hxF, hn]
    norm_num [regAfter]
    rw [setByte_same, setByte_other _ _ _ _ hy]
  · intro s env instr hf h8 hxF hy hn
    unfold step
    rw [hf]
    simp only [h8, hxF, hn]
    norm_num [regAfter]
    rw [setByte_same, setByte_same, setByte_other _ _ _ _ hy]
  · intro s env instr hf h8 hxF hy hn
    unfold step
    rw [hf]
    simp only [h8, hxF, hn]
    norm_num [regAfter]
    rw [setByte_same, setByte_other _ _ _ _ hy]
  · intro s env instr mem' d' fl hf hD hdraw
    unfold step
    rw [hf]
    simp only [hD]
    norm_num [regAfter]
    rw [draw_sprite_tick, hdraw]
    simp [setByte_same]

/-- C7 witness: a freshly loaded 8F04 instruction with all registers
zero ends with VF = 0, the no-carry flag. -/
theorem C7_vf_write_order_amended_witness :
    regAfter (step env0 (loadOrInit [0x8F, 0x04])) 0xf = some 0 := by
  have h := C7_vf_write_order_amended.1 (loadOrInit [0x8F, 0x04]) env0 0x8F04
    rfl (by decide) (by decide) (by decide)
  simpa using h

/-- C9: FX55 followed by an arbitrary overwrite of the registers, a
restore of I, and FX65 with the same X restores V[0..=X].  The first
state executes an FX55 instruction with mem[I..=I+X] in bounds; the
second state (arbitrary registers, same memory as after FX55, same I)
executes an FX65 instruction with the same X nibble. -/
theorem C9_store_load_roundtrip (s s1 s2 s3 : Cpu) (env1 env2 : Env)
    (instr1 instr2 : Nat) (b1 b2 : Bool)
    (hf1 : get_next_instruction s = some instr1)
    (hF1 : instr1 &&& 0xf000 = 0xf000)
    (h55 : instr1 &&& 0xff = 0x55)
    (hbound : s.i + ((instr1 &&& 0x0f00) >>> 8) < 8192)
    (hstep1 : step env1 s = some (.ok (s1, b1)))
    (hmem : s2.mem = s1.mem)
    (hi : s2.i = s.i)
    (hf2 : get_next_instruction s2 = some instr2)
    (hF2 : instr2 &&& 0xf000 = 0xf000)
    (h65 : instr2 &&& 0xff = 0x65)
    (hx : (instr2 &&& 0x0f00) >>> 8 = (instr1 &&& 0x0f00) >>> 8)
    (hstep2 : step env2 s2 = some (.ok (s3, b2))) :
    ∀ j, j ≤ (instr1 &&& 0x0f00) >>> 8 →
      s3.gp_registers j = s.gp_registers j := by
  intro j hj
  unfold step at hstep1
  rw [hf1] at hstep1
  simp only [hF1, h55] at hstep1
  norm_num [MEM_SIZE] at hstep1
  obtain ⟨-, hs1, -⟩ := hstep1
  have hmem1 : s1.mem = fun k =>
      if s.i ≤ k ∧ k < s.i + ((instr1 &&& 0x0f00) >>> 8) + 1
      then s.gp_registers (k - s.i) else s.mem k := by
    rw [← hs1]
  unfold step at hstep2
  rw [hf2] at hstep2
  simp only [hF2, h65, hx, hi] at hstep2
  norm_num [MEM_SIZE] at hstep2
  obtain ⟨-, hs3, -⟩ := hstep2
  have hgp3 : s3.gp_registers = fun j =>
      if j < (instr1 &&& 0x0f00) >>> 8 + 1
      then s2.mem (s.i + j) else s2.gp_registers j := by
    rw [← hs3]
  rw [hgp3]
  simp only
  rw [if_pos (by omega), hmem, hmem1]
  simp only
  rw [if_pos (by omega)]
  congr 1
  omega

/-- C9 witness: the store/overwrite/load scenario on the concrete
states restores V0 = 11 and V1 = 22. -/
theorem C9_store_load_roundtrip_witness :
    c9s3.gp_registers 0 = 11 ∧ c9s3.gp_registers 1 = 22 := by
  have h := C9_store_load_roundtrip c9s c9s1 c9s2 c9s3 env0 env0 0xF155 0xF165
    true true rfl (by decide) (by decide) (by decide) rfl rfl rfl rfl
    (by decide) (by decide) (by decide) rfl
  exact ⟨h 0 (by decide), h 1 (by decide)⟩

/-- Bitwise or of two bytes is a byte. -/
theorem or_lt_256 {a b : Nat} (ha : a < 256) (hb : b < 256) : a ||| b < 256 := by
  have h : (256 : Nat) = 2 ^ 8 := by norm_num
  rw [h] at ha hb ⊢
  exact Nat.or_lt_two_pow ha hb

/-- Bitwise xor of two bytes is a byte. -/
theorem xor_lt_256 {a b : Nat} (ha : a < 256) (hb : b < 256) : a ^^^ b < 256 := by
  have h : (256 : Nat) = 2 ^ 8 := by norm_num
  rw [h] at ha hb ⊢
  exact Nat.xor_lt_two_pow ha hb

/-- Masking with a byte yields a byte. -/
theorem and_lt_256 (a : Nat) {b : Nat} (hb : b < 256) : a &&& b < 256 :=
  lt_of_le_of_lt Nat.and_le_right hb

/-- A right shift does not increase a value. -/
theorem shiftRight_lt_256 {a : Nat} (ha : a < 256) (k : Nat) : a >>> k < 256 := by
  rw [Nat.shiftRight_eq_div_pow]
  exact lt_of_le_of_lt (Nat.div_le_self a (2 ^ k)) ha

/-- Updating a byte array with a byte value preserves RegsOk. -/
theorem setByte_regsOk {r : Nat → Nat} (h : RegsOk r) {v : Nat} (hv : v < 256)
    (idx : Nat) : RegsOk (setByte r idx v) := by
  intro j
  by_cases hj : j = idx
  · subst hj
    rw [setByte_same]
    exact hv
  · rw [setByte_other _ _ _ _ hj]
    exact h j

/-- Updating a byte array with a byte value preserves MemOk. -/
theorem setByte_memOk {m : Nat → Nat} (h : MemOk m) {v : Nat} (hv : v < 256)
    (idx : Nat) : MemOk (setByte m idx v) := by
  intro j
  by_cases hj : j = idx
  · subst hj
    rw [setByte_same]
    exact hv
  · rw [setByte_other _ _ _ _ hj]
    exact h j

/-- handle_timer never increases a timer value. -/
theorem handle_timer_le (e : Bool) (t : Nat) : (handle_timer e t).1 ≤ t := by
  unfold handle_timer
  split_ifs <;> omega

/-- A successful fetch means pc+1 is inside memory. -/
theorem fetch_pc_lt {c : Cpu} {i : Nat} (h : get_next_instruction c = some i) :
    c.pc + 1 < 8192 := by
  unfold get_next_instruction MEM_SIZE at h
  split_ifs at h with hc
  exact hc.2

/-- The byte returned by the 8-iteration inner draw loop is a byte
(it went through at least one in-place shift modulo 256). -/
theorem drawByte8_b_lt {d : Nat → Nat} {b cx cy : Nat} {flag : Bool}
    {d' : Nat → Nat} {b' cx' : Nat} {fl' : Bool}
    (h : drawByte d b cx cy flag 8 = some (d', b', cx', fl')) : b' < 256 := by
  simp only [drawByte] at h
  split_ifs at h <;>
    simp only [Option.some.injEq, Prod.mk.injEq] at h
  obtain ⟨-, hb, -⟩ := h
  omega

/-- The outer draw loop writes only bytes back into memory. -/
theorem drawRows_memOk (x0 : Nat) :
    ∀ (rows a cy : Nat) (mem d : Nat → Nat) (flag : Bool)
      (mem' d' : Nat → Nat) (fl : Bool),
      MemOk mem →
      drawRows x0 rows a cy mem d flag = some (mem', d', fl) →
      MemOk mem'
  | 0, a, cy, mem, d, flag, mem', d', fl, hm, h => by
    simp only [drawRows, Option.some.injEq, Prod.mk.injEq] at h
    obtain ⟨h1, -, -⟩ := h
    rw [← h1]
    exact hm
  | rows + 1, a, cy, mem, d, flag, mem', d', fl, hm, h => by
    simp only [drawRows] at h
    cases hdb : drawByte d (mem a) x0 cy flag 8 with
    | none => rw [hdb] at h; cases h
    | some res =>
      obtain ⟨d1, b1, cx1, fl1⟩ := res
      rw [hdb] at h
      exact drawRows_memOk x0 rows (a + 1) (cy + 1) (setByte mem a b1) d1 fl1
        mem' d' fl (setByte_memOk hm (drawByte8_b_lt hdb) a) h

/-- draw_sprite writes only bytes back into memory. -/
theorem draw_sprite_memOk {c : Cpu} {n x y : Nat}
    {mem' d' : Nat → Nat} {fl : Bool}
    (hm : MemOk c.mem)
    (h : draw_sprite c n x y = some (mem', d', fl)) : MemOk mem' := by
  unfold draw_sprite at h
  simp only [MEM_SIZE] at h
  split_ifs at h
  exact drawRows_memOk (x % WIDTH) n c.i (y % HEIGHT) c.mem c.d_buffer false
    mem' d' fl hm h

end Chip8

namespace Chip8
set_option maxHeartbeats 2000000

/-- A step result that is an error is never an Ok result. -/
theorem step_err_ne_ok {e : ExecuteError} {x : Cpu × Bool} {C : Prop}
    (h : (some (Except.error e) : Option (Except ExecuteError (Cpu × Bool))) =
      some (Except.ok x)) : C :=
  Except.noConfusion (Option.some.inj h)

/-- A step result that is a panic is never an Ok result. -/
theorem step_none_ne_some {x : Except ExecuteError (Cpu × Bool)} {C : Prop}
    (h : (none : Option (Except ExecuteError (Cpu × Bool))) = some x) : C :=
  Option.noConfusion h

/-- Numeric bound used by the preservation proof. -/
theorem lt256_0 : (0 : Nat) < 256 := by norm_num

/-- Numeric bound used by the preservation proof. -/
theorem lt256_1 : (1 : Nat) < 256 := by norm_num

/-- Numeric bound used by the preservation proof. -/
theorem lt256_128 : (128 : Nat) < 256 := by norm_num

/-- Numeric bound used by the preservation proof. -/
theorem lt256_255 : (255 : Nat) < 256 := by norm_num

/-- Numeric bound used by the preservation proof. -/
theorem le256_2 : (2 : Nat) ≤ 256 := by norm_num

/-- Numeric bound used by the preservation proof. -/
theorem pos2 : (0 : Nat) < 2 := by norm_num

/-- Numeric bound used by the preservation proof. -/
theorem pos256 : (0 : Nat) < 256 := by norm_num

/-- Preservation: one successful step keeps the machine invariant. -/
theorem step_inv (env : Env) (c c' : Cpu) (b : Bool)
    (hEnv : EnvOk env) (hInv : Inv c)
    (h : step env c = some (.ok (c', b))) : Inv c' := by
  obtain ⟨hreg, hmem, hpc, hstk, hend, hdt, hst⟩ := hInv
  cases hfetch : get_next_instruction c with
  | none =>
    unfold step at h
    rw [hfetch] at h
    simp at h
  | some instr =>
    have hpcb := fetch_pc_lt hfetch
    have hdtB : (handle_timer env.delay_elapsed c.delay_timer).1 < 256 :=
      lt_of_le_of_lt (handle_timer_le _ _) hdt
    have hstB : (handle_timer env.sound_elapsed c.sound_timer).1 < 256 :=
      lt_of_le_of_lt (handle_timer_le _ _) hst
    have hnnn : instr &&& 0x0fff ≤ 0x0fff := Nat.and_le_right
    have hnnB : instr &&& 0x00ff < 256 :=
      lt_of_le_of_lt Nat.and_le_right (by norm_num)
    have hreg0 := hreg 0
    unfold step at h
    rw [hfetch] at h

    by_cases h0 : instr &&& 0xf000 = 0x0000
    · simp only [h0, Nat.reduceEqDiff, ite_true, ite_false, eq_self_iff_true,
        if_true, if_false] at h
      split_ifs at h with hx0 he0 hee
      · simp only [Option.some.injEq, Except.ok.injEq, Prod.mk.injEq] at h
        obtain ⟨hc', -⟩ := h
        subst hc'
        refine ⟨?_, ?_, ?_, ?_, ?_, ?_, ?_⟩ <;> dsimp only <;>
          first
            | exact hreg
            | exact hmem
            | exact hstk
            | exact hend
            | exact hdtB
            | exact hstB
            | omega
      · simp only [Option.some.injEq, Except.ok.injEq, Prod.mk.injEq] at h
        obtain ⟨hc', -⟩ := h
        subst hc'
        refine ⟨?_, ?_, ?_, ?_, ?_, ?_, ?_⟩ <;> dsimp only <;>
          first
            | exact hreg
            | exact hmem
            | exact hstk
            | exact hend
            | exact hdtB
            | exact hstB
            | omega
      · split at h
        · exact step_err_ne_ok h
        · rename_i addr rest heq
          split_ifs at h with hv
          · simp only [Option.some.injEq, Except.ok.injEq, Prod.mk.injEq] at h
            obtain ⟨hc', -⟩ := h
            subst hc'
            unfold is_valid_program_addr at hv
            simp only [Bool.and_eq_true, decide_eq_true_eq] at hv
            rw [heq] at hstk
            simp only [List.length_cons] at hstk
            refine ⟨?_, ?_, ?_, ?_, ?_, ?_, ?_⟩ <;> dsimp only <;>
              first
                | exact hreg
                | exact hmem
                | exact hend
                | exact hdtB
                | exact hstB
                | omega
          · exact step_err_ne_ok h
      · exact step_err_ne_ok h

    by_cases h1 : instr &&& 0xf000 = 0x1000
    · simp only [h0, h1, Nat.reduceEqDiff, ite_true, ite_false,
        eq_self_iff_true, if_true, if_false] at h
      all_goals try (repeat' split at h)
      all_goals try exact step_err_ne_ok h
      all_goals try exact step_none_ne_some h
      all_goals try simp only [Option.some.injEq, Except.ok.injEq, Prod.mk.injEq] at h
      all_goals obtain ⟨hc', -⟩ := h
      all_goals subst hc'
      all_goals refine ⟨?_, ?_, ?_, ?_, ?_, ?_, ?_⟩
      all_goals try dsimp only
      all_goals
                first
          | exact hreg
          | exact hmem
          | exact hstk
          | exact hend
          | exact hdtB
          | exact hstB
          | exact hreg _
          | ((intro j; try simp only [setByte, wrappingAdd8, wrappingSub8]; repeat' split) <;>
              first
                | exact hreg _
                | exact hmem _
                | exact hnnB
                | exact hdtB
                | exact lt256_0
                | exact lt256_1
                | exact Nat.mod_lt _ pos256
                | exact or_lt_256 (hreg _) (hreg _)
                | exact xor_lt_256 (hreg _) (hreg _)
                | exact and_lt_256 _ (hreg _)
                | exact and_lt_256 _ hnnB
                | exact and_lt_256 _ lt256_1
                | exact and_lt_256 _ lt256_128
                | exact and_lt_256 _ lt256_255
                | exact shiftRight_lt_256 (hreg _) _
                | exact shiftRight_lt_256 hnnB _
                | exact shiftRight_lt_256 (and_lt_256 _ lt256_1) _
                | exact shiftRight_lt_256 (and_lt_256 _ lt256_128) _
                | exact lt_of_lt_of_le (Nat.mod_lt _ pos2) le256_2
                | exact lt_of_le_of_lt (Nat.div_le_self _ _) (hreg _)
                | exact lt_of_le_of_lt (le_trans (Nat.div_le_self _ _) (Nat.mod_le _ _)) (hreg _)
                | exact lt_of_le_of_lt (Nat.mod_le _ _) (hreg _)
                | (refine hEnv _ ?_; assumption)
                | assumption
                | omega)
          | (simp only [List.length_cons]; omega)
          | (split <;> omega)
          | omega
    by_cases h2 : instr &&& 0xf000 = 0x2000
    · simp only [h0, h1, h2, Nat.reduceEqDiff, ite_true, ite_false,
        eq_self_iff_true, if_true, if_false] at h
      all_goals try (repeat' split at h)
      all_goals try exact step_err_ne_ok h
      all_goals try exact step_none_ne_some h
      all_goals try simp only [Option.some.injEq, Except.ok.injEq, Prod.mk.injEq] at h
      all_goals obtain ⟨hc', -⟩ := h
      all_goals subst hc'
      all_goals refine ⟨?_, ?_, ?_, ?_, ?_, ?_, ?_⟩
      all_goals try dsimp only
      all_goals
                first
          | exact hreg
          | exact hmem
          | exact hstk
          | exact hend
          | exact hdtB
          | exact hstB
          | exact hreg _
          | ((intro j; try simp only [setByte, wrappingAdd8, wrappingSub8]; repeat' split) <;>
              first
                | exact hreg _
                | exact hmem _
                | exact hnnB
                | exact hdtB
                | exact lt256_0
                | exact lt256_1
                | exact Nat.mod_lt _ pos256
                | exact or_lt_256 (hreg _) (hreg _)
                | exact xor_lt_256 (hreg _) (hreg _)
                | exact and_lt_256 _ (hreg _)
                | exact and_lt_256 _ hnnB
                | exact and_lt_256 _ lt256_1
                | exact and_lt_256 _ lt256_128
                | exact and_lt_256 _ lt256_255
                | exact shiftRight_lt_256 (hreg _) _
                | exact shiftRight_lt_256 hnnB _
                | exact shiftRight_lt_256 (and_lt_256 _ lt256_1) _
                | exact shiftRight_lt_256 (and_lt_256 _ lt256_128) _
                | exact lt_of_lt_of_le (Nat.mod_lt _ pos2) le256_2
                | exact lt_of_le_of_lt (Nat.div_le_self _ _) (hreg _)
                | exact lt_of_le_of_lt (le_trans (Nat.div_le_self _ _) (Nat.mod_le _ _)) (hreg _)
                | exact lt_of_le_of_lt (Nat.mod_le _ _) (hreg _)
                | (refine hEnv _ ?_; assumption)
                | assumption
                | omega)
          | (simp only [List.length_cons]; omega)
          | (split <;> omega)
          | omega
    by_cases h3 : instr &&& 0xf000 = 0x3000
    · simp only [h0, h1, h2, h3, Nat.reduceEqDiff, ite_true, ite_false,
        eq_self_iff_true, if_true, if_false] at h
      all_goals try (repeat' split at h)
      all_goals try exact step_err_ne_ok h
      all_goals try exact step_none_ne_some h
      all_goals try simp only [Option.some.injEq, Except.ok.injEq, Prod.mk.injEq] at h
      all_goals obtain ⟨hc', -⟩ := h
      all_goals subst hc'
      all_goals refine ⟨?_, ?_, ?_, ?_, ?_, ?_, ?_⟩
      all_goals try dsimp only
      all_goals
                first
          | exact hreg
          | exact hmem
          | exact hstk
          | exact hend
          | exact hdtB
          | exact hstB
          | exact hreg _
          | ((intro j; try simp only [setByte, wrappingAdd8, wrappingSub8]; repeat' split) <;>
              first
                | exact hreg _
                | exact hmem _
                | exact hnnB
                | exact hdtB
                | exact lt256_0
                | exact lt256_1
                | exact Nat.mod_lt _ pos256
                | exact or_lt_256 (hreg _) (hreg _)
                | exact xor_lt_256 (hreg _) (hreg _)
                | exact and_lt_256 _ (hreg _)
                | exact and_lt_256 _ hnnB
                | exact and_lt_256 _ lt256_1
                | exact and_lt_256 _ lt256_128
                | exact and_lt_256 _ lt256_255
                | exact shiftRight_lt_256 (hreg _) _
                | exact shiftRight_lt_256 hnnB _
                | exact shiftRight_lt_256 (and_lt_256 _ lt256_1) _
                | exact shiftRight_lt_256 (and_lt_256 _ lt256_128) _
                | exact lt_of_lt_of_le (Nat.mod_lt _ pos2) le256_2
                | exact lt_of_le_of_lt (Nat.div_le_self _ _) (hreg _)
                | exact lt_of_le_of_lt (le_trans (Nat.div_le_self _ _) (Nat.mod_le _ _)) (hreg _)
                | exact lt_of_le_of_lt (Nat.mod_le _ _) (hreg _)
                | (refine hEnv _ ?_; assumption)
                | assumption
                | omega)
          | (simp only [List.length_cons]; omega)
          | (split <;> omega)
          | omega
    by_cases h4 : instr &&& 0xf000 = 0x4000
    · simp only [h0, h1, h2, h3, h4, Nat.reduceEqDiff, ite_true, ite_false,
        eq_self_iff_true, if_true, if_false] at h
      all_goals try (repeat' split at h)
      all_goals try exact step_err_ne_ok h
      all_goals try exact step_none_ne_some h
      all_goals try simp only [Option.some.injEq, Except.ok.injEq, Prod.mk.injEq] at h
      all_goals obtain ⟨hc', -⟩ := h
      all_goals subst hc'
      all_goals refine ⟨?_, ?_, ?_, ?_, ?_, ?_, ?_⟩
      all_goals try dsimp only
      all_goals
                first
          | exact hreg
          | exact hmem
          | exact hstk
          | exact hend
          | exact hdtB
          | exact hstB
          | exact hreg _
          | ((intro j; try simp only [setByte, wrappingAdd8, wrappingSub8]; repeat' split) <;>
              first
                | exact hreg _
                | exact hmem _
                | exact hnnB
                | exact hdtB
                | exact lt256_0
                | exact lt256_1
                | exact Nat.mod_lt _ pos256
                | exact or_lt_256 (hreg _) (hreg _)
                | exact xor_lt_256 (hreg _) (hreg _)
                | exact and_lt_256 _ (hreg _)
                | exact and_lt_256 _ hnnB
                | exact and_lt_256 _ lt256_1
                | exact and_lt_256 _ lt256_128
                | exact and_lt_256 _ lt256_255
                | exact shiftRight_lt_256 (hreg _) _
                | exact shiftRight_lt_256 hnnB _
                | exact shiftRight_lt_256 (and_lt_256 _ lt256_1) _
                | exact shiftRight_lt_256 (and_lt_256 _ lt256_128) _
                | exact lt_of_lt_of_le (Nat.mod_lt _ pos2) le256_2
                | exact lt_of_le_of_lt (Nat.div_le_self _ _) (hreg _)
                | exact lt_of_le_of_lt (le_trans (Nat.div_le_self _ _) (Nat.mod_le _ _)) (hreg _)
                | exact lt_of_le_of_lt (Nat.mod_le _ _) (hreg _)
                | (refine hEnv _ ?_; assumption)
                | assumption
                | omega)
          | (simp only [List.length_cons]; omega)
          | (split <;> omega)
          | omega
    by_cases h5 : instr &&& 0xf000 = 0x5000
    · simp only [h0, h1, h2, h3, h4, h5, Nat.reduceEqDiff, ite_true, ite_false,
        eq_self_iff_true, if_true, if_false] at h
      all_goals try (repeat' split at h)
      all_goals try exact step_err_ne_ok h
      all_goals try exact step_none_ne_some h
      all_goals try simp only [Option.some.injEq, Except.ok.injEq, Prod.mk.injEq] at h
      all_goals obtain ⟨hc', -⟩ := h
      all_goals subst hc'
      all_goals refine ⟨?_, ?_, ?_, ?_, ?_, ?_, ?_⟩
      all_goals try dsimp only
      all_goals
                first
          | exact hreg
          | exact hmem
          | exact hstk
          | exact hend
          | exact hdtB
          | exact hstB
          | exact hreg _
          | ((intro j; try simp only [setByte, wrappingAdd8, wrappingSub8]; repeat' split) <;>
              first
                | exact hreg _
                | exact hmem _
                | exact hnnB
                | exact hdtB
                | exact lt256_0
                | exact lt256_1
                | exact Nat.mod_lt _ pos256
                | exact or_lt_256 (hreg _) (hreg _)
                | exact xor_lt_256 (hreg _) (hreg _)
                | exact and_lt_256 _ (hreg _)
                | exact and_lt_256 _ hnnB
                | exact and_lt_256 _ lt256_1
                | exact and_lt_256 _ lt256_128
                | exact and_lt_256 _ lt256_255
                | exact shiftRight_lt_256 (hreg _) _
                | exact shiftRight_lt_256 hnnB _
                | exact shiftRight_lt_256 (and_lt_256 _ lt256_1) _
                | exact shiftRight_lt_256 (and_lt_256 _ lt256_128) _
                | exact lt_of_lt_of_le (Nat.mod_lt _ pos2) le256_2
                | exact lt_of_le_of_lt (Nat.div_le_self _ _) (hreg _)
                | exact lt_of_le_of_lt (le_trans (Nat.div_le_self _ _) (Nat.mod_le _ _)) (hreg _)
                | exact lt_of_le_of_lt (Nat.mod_le _ _) (hreg _)
                | (refine hEnv _ ?_; assumption)
                | assumption
                | omega)
          | (simp only [List.length_cons]; omega)
          | (split <;> omega)
          | omega
    by_cases h6 : instr &&& 0xf000 = 0x6000
    · simp only [h0, h1, h2, h3, h4, h5, h6, Nat.reduceEqDiff, ite_true, ite_false,
        eq_self_iff_true, if_true, if_false] at h
      all_goals try (repeat' split at h)
      all_goals try exact step_err_ne_ok h
      all_goals try exact step_none_ne_some h
      all_goals try simp only [Option.some.injEq, Except.ok.injEq, Prod.mk.injEq] at h
      all_goals obtain ⟨hc', -⟩ := h
      all_goals subst hc'
      all_goals refine ⟨?_, ?_, ?_, ?_, ?_, ?_, ?_⟩
      all_goals try dsimp only
      all_goals
                first
          | exact hreg
          | exact hmem
          | exact hstk
          | exact hend
          | exact hdtB
          | exact hstB
          | exact hreg _
          | ((intro j; try simp only [setByte, wrappingAdd8, wrappingSub8]; repeat' split) <;>
              first
                | exact hreg _
                | exact hmem _
                | exact hnnB
                | exact hdtB
                | exact lt256_0
                | exact lt256_1
                | exact Nat.mod_lt _ pos256
                | exact or_lt_256 (hreg _) (hreg _)
                | exact xor_lt_256 (hreg _) (hreg _)
                | exact and_lt_256 _ (hreg _)
                | exact and_lt_256 _ hnnB
                | exact and_lt_256 _ lt256_1
                | exact and_lt_256 _ lt256_128
                | exact and_lt_256 _ lt256_255
                | exact shiftRight_lt_256 (hreg _) _
                | exact shiftRight_lt_256 hnnB _
                | exact shiftRight_lt_256 (and_lt_256 _ lt256_1) _
                | exact shiftRight_lt_256 (and_lt_256 _ lt256_128) _
                | exact lt_of_lt_of_le (Nat.mod_lt _ pos2) le256_2
                | exact lt_of_le_of_lt (Nat.div_le_self _ _) (hreg _)
                | exact lt_of_le_of_lt (le_trans (Nat.div_le_self _ _) (Nat.mod_le _ _)) (hreg _)
                | exact lt_of_le_of_lt (Nat.mod_le _ _) (hreg _)
                | (refine hEnv _ ?_; assumption)
                | assumption
                | omega)
          | (simp only [List.length_cons]; omega)
          | (split <;> omega)
          | omega
    by_cases h7 : instr &&& 0xf000 = 0x7000
    · simp only [h0, h1, h2, h3, h4, h5, h6, h7, Nat.reduceEqDiff, ite_true, ite_false,
        eq_self_iff_true, if_true, if_false] at h
      all_goals try (repeat' split at h)
      all_goals try exact step_err_ne_ok h
      all_goals try exact step_none_ne_some h
      all_goals try simp only [Option.some.injEq, Except.ok.injEq, Prod.mk.injEq] at h
      all_goals obtain ⟨hc', -⟩ := h
      all_goals subst hc'
      all_goals refine ⟨?_, ?_, ?_, ?_, ?_, ?_, ?_⟩
      all_goals try dsimp only
      all_goals
                first
          | exact hreg
          | exact hmem
          | exact hstk
          | exact hend
          | exact hdtB
          | exact hstB
          | exact hreg _
          | ((intro j; try simp only [setByte, wrappingAdd8, wrappingSub8]; repeat' split) <;>
              first
                | exact hreg _
                | exact hmem _
                | exact hnnB
                | exact hdtB
                | exact lt256_0
                | exact lt256_1
                | exact Nat.mod_lt _ pos256
                | exact or_lt_256 (hreg _) (hreg _)
                | exact xor_lt_256 (hreg _) (hreg _)
                | exact and_lt_256 _ (hreg _)
                | exact and_lt_256 _ hnnB
                | exact and_lt_256 _ lt256_1
                | exact and_lt_256 _ lt256_128
                | exact and_lt_256 _ lt256_255
                | exact shiftRight_lt_256 (hreg _) _
                | exact shiftRight_lt_256 hnnB _
                | exact shiftRight_lt_256 (and_lt_256 _ lt256_1) _
                | exact shiftRight_lt_256 (and_lt_256 _ lt256_128) _
                | exact lt_of_lt_of_le (Nat.mod_lt _ pos2) le256_2
                | exact lt_of_le_of_lt (Nat.div_le_self _ _) (hreg _)
                | exact lt_of_le_of_lt (le_trans (Nat.div_le_self _ _) (Nat.mod_le _ _)) (hreg _)
                | exact lt_of_le_of_lt (Nat.mod_le _ _) (hreg _)
                | (refine hEnv _ ?_; assumption)
                | assumption
                | omega)
          | (simp only [List.length_cons]; omega)
          | (split <;> omega)
          | omega
    by_cases h8 : instr &&& 0xf000 = 0x8000
    · by_cases hn0 : instr &&& 0x000f = 0x0
      · simp only [h0, h1, h2, h3, h4, h5, h6, h7, h8, hn0, Nat.reduceEqDiff, ite_true, ite_false,
          eq_self_iff_true, if_true, if_false] at h
        all_goals try (repeat' split at h)
        all_goals try exact step_err_ne_ok h
        all_goals try exact step_none_ne_some h
        all_goals try simp only [Option.some.injEq, Except.ok.injEq, Prod.mk.injEq] at h
        all_goals obtain ⟨hc', -⟩ := h
        all_goals subst hc'
        all_goals refine ⟨?_, ?_, ?_, ?_, ?_, ?_, ?_⟩
        all_goals try dsimp only
        all_goals
                  first
            | exact hreg
            | exact hmem
            | exact hstk
            | exact hend
            | exact hdtB
            | exact hstB
            | exact hreg _
            | ((intro j; try simp only [setByte, wrappingAdd8, wrappingSub8]; repeat' split) <;>
                first
                  | exact hreg _
                  | exact hmem _
                  | exact hnnB
                  | exact hdtB
                  | exact lt256_0
                  | exact lt256_1
                  | exact Nat.mod_lt _ pos256
                  | exact or_lt_256 (hreg _) (hreg _)
                  | exact xor_lt_256 (hreg _) (hreg _)
                  | exact and_lt_256 _ (hreg _)
                  | exact and_lt_256 _ hnnB
                  | exact and_lt_256 _ lt256_1
                  | exact and_lt_256 _ lt256_128
                  | exact and_lt_256 _ lt256_255
                  | exact shiftRight_lt_256 (hreg _) _
                  | exact shiftRight_lt_256 hnnB _
                  | exact shiftRight_lt_256 (and_lt_256 _ lt256_1) _
                  | exact shiftRight_lt_256 (and_lt_256 _ lt256_128) _
                  | exact lt_of_lt_of_le (Nat.mod_lt _ pos2) le256_2
                  | exact lt_of_le_of_lt (Nat.div_le_self _ _) (hreg _)
                  | exact lt_of_le_of_lt (le_trans (Nat.div_le_self _ _) (Nat.mod_le _ _)) (hreg _)
                  | exact lt_of_le_of_lt (Nat.mod_le _ _) (hreg _)
                  | (refine hEnv _ ?_; assumption)
                  | assumption
                  | omega)
            | (simp only [List.length_cons]; omega)
            | (split <;> omega)
            | omega
      by_cases hn1 : instr &&& 0x000f = 0x1
      · simp only [h0, h1, h2, h3, h4, h5, h6, h7, h8, hn0, hn1, Nat.reduceEqDiff, ite_true, ite_false,
          eq_self_iff_true, if_true, if_false] at h
        all_goals try (repeat' split at h)
        all_goals try exact step_err_ne_ok h
        all_goals try exact step_none_ne_some h
        all_goals try simp only [Option.some.injEq, Except.ok.injEq, Prod.mk.injEq] at h
        all_goals obtain ⟨hc', -⟩ := h
        all_goals subst hc'
        all_goals refine ⟨?_, ?_, ?_, ?_, ?_, ?_, ?_⟩
        all_goals try dsimp only
        all_goals
                  first
            | exact hreg
            | exact hmem
            | exact hstk
            | exact hend
            | exact hdtB
            | exact hstB
            | exact hreg _
            | ((intro j; try simp only [setByte, wrappingAdd8, wrappingSub8]; repeat' split) <;>
                first
                  | exact hreg _
                  | exact hmem _
                  | exact hnnB
                  | exact hdtB
                  | exact lt256_0
                  | exact lt256_1
                  | exact Nat.mod_lt _ pos256
                  | exact or_lt_256 (hreg _) (hreg _)
                  | exact xor_lt_256 (hreg _) (hreg _)
                  | exact and_lt_256 _ (hreg _)
                  | exact and_lt_256 _ hnnB
                  | exact and_lt_256 _ lt256_1
                  | exact and_lt_256 _ lt256_128
                  | exact and_lt_256 _ lt256_255
                  | exact shiftRight_lt_256 (hreg _) _
                  | exact shiftRight_lt_256 hnnB _
                  | exact shiftRight_lt_256 (and_lt_256 _ lt256_1) _
                  | exact shiftRight_lt_256 (and_lt_256 _ lt256_128) _
                  | exact lt_of_lt_of_le (Nat.mod_lt _ pos2) le256_2
                  | exact lt_of_le_of_lt (Nat.div_le_self _ _) (hreg _)
                  | exact lt_of_le_of_lt (le_trans (Nat.div_le_self _ _) (Nat.mod_le _ _)) (hreg _)
                  | exact lt_of_le_of_lt (Nat.mod_le _ _) (hreg _)
                  | (refine hEnv _ ?_; assumption)
                  | assumption
                  | omega)
            | (simp only [List.length_cons]; omega)
            | (split <;> omega)
            | omega
      by_cases hn2 : instr &&& 0x000f = 0x2
      · simp only [h0, h1, h2, h3, h4, h5, h6, h7, h8, hn0, hn1, hn2, Nat.reduceEqDiff, ite_true, ite_false,
          eq_self_iff_true, if_true, if_false] at h
        all_goals try (repeat' split at h)
        all_goals try exact step_err_ne_ok h
        all_goals try exact step_none_ne_some h
        all_goals try simp only [Option.some.injEq, Except.ok.injEq, Prod.mk.injEq] at h
        all_goals obtain ⟨hc', -⟩ := h
        all_goals subst hc'
        all_goals refine ⟨?_, ?_, ?_, ?_, ?_, ?_, ?_⟩
        all_goals try dsimp only
        all_goals
                  first
            | exact hreg
            | exact hmem
            | exact hstk
            | exact hend
            | exact hdtB
            | exact hstB
            | exact hreg _
            | ((intro j; try simp only [setByte, wrappingAdd8, wrappingSub8]; repeat' split) <;>
                first
                  | exact hreg _
                  | exact hmem _
                  | exact hnnB
                  | exact hdtB
                  | exact lt256_0
                  | exact lt256_1
                  | exact Nat.mod_lt _ pos256
                  | exact or_lt_256 (hreg _) (hreg _)
                  | exact xor_lt_256 (hreg _) (hreg _)
                  | exact and_lt_256 _ (hreg _)
                  | exact and_lt_256 _ hnnB
                  | exact and_lt_256 _ lt256_1
                  | exact and_lt_256 _ lt256_128
                  | exact and_lt_256 _ lt256_255
                  | exact shiftRight_lt_256 (hreg _) _
                  | exact shiftRight_lt_256 hnnB _
                  | exact shiftRight_lt_256 (and_lt_256 _ lt256_1) _
                  | exact shiftRight_lt_256 (and_lt_256 _ lt256_128) _
                  | exact lt_of_lt_of_le (Nat.mod_lt _ pos2) le256_2
                  | exact lt_of_le_of_lt (Nat.div_le_self _ _) (hreg _)
                  | exact lt_of_le_of_lt (le_trans (Nat.div_le_self _ _) (Nat.mod_le _ _)) (hreg _)
                  | exact lt_of_le_of_lt (Nat.mod_le _ _) (hreg _)
                  | (refine hEnv _ ?_; assumption)
                  | assumption
                  | omega)
            | (simp only [List.length_cons]; omega)
            | (split <;> omega)
            | omega
      by_cases hn3 : instr &&& 0x000f = 0x3
      · simp only [h0, h1, h2, h3, h4, h5, h6, h7, h8, hn0, hn1, hn2, hn3, Nat.reduceEqDiff, ite_true, ite_false,
          eq_self_iff_true, if_true, if_false] at h
        all_goals try (repeat' split at h)
        all_goals try exact step_err_ne_ok h
        all_goals try exact step_none_ne_some h
        all_goals try simp only [Option.some.injEq, Except.ok.injEq, Prod.mk.injEq] at h
        all_goals obtain ⟨hc', -⟩ := h
        all_goals subst hc'
        all_goals refine ⟨?_, ?_, ?_, ?_, ?_, ?_, ?_⟩
        all_goals try dsimp only
        all_goals
                  first
            | exact hreg
            | exact hmem
            | exact hstk
            | exact hend
            | exact hdtB
            | exact hstB
            | exact hreg _
            | ((intro j; try simp only [setByte, wrappingAdd8, wrappingSub8]; repeat' split) <;>
                first
                  | exact hreg _
                  | exact hmem _
                  | exact hnnB
                  | exact hdtB
                  | exact lt256_0
                  | exact lt256_1
                  | exact Nat.mod_lt _ pos256
                  | exact or_lt_256 (hreg _) (hreg _)
                  | exact xor_lt_256 (hreg _) (hreg _)
                  | exact and_lt_256 _ (hreg _)
                  | exact and_lt_256 _ hnnB
                  | exact and_lt_256 _ lt256_1
                  | exact and_lt_256 _ lt256_128
                  | exact and_lt_256 _ lt256_255
                  | exact shiftRight_lt_256 (hreg _) _
                  | exact shiftRight_lt_256 hnnB _
                  | exact shiftRight_lt_256 (and_lt_256 _ lt256_1) _
                  | exact shiftRight_lt_256 (and_lt_256 _ lt256_128) _
                  | exact lt_of_lt_of_le (Nat.mod_lt _ pos2) le256_2
                  | exact lt_of_le_of_lt (Nat.div_le_self _ _) (hreg _)
                  | exact lt_of_le_of_lt (le_trans (Nat.div_le_self _ _) (Nat.mod_le _ _)) (hreg _)
                  | exact lt_of_le_of_lt (Nat.mod_le _ _) (hreg _)
                  | (refine hEnv _ ?_; assumption)
                  | assumption
                  | omega)
            | (simp only [List.length_cons]; omega)
            | (split <;> omega)
            | omega
      by_cases hn4 : instr &&& 0x000f = 0x4
      · simp only [h0, h1, h2, h3, h4, h5, h6, h7, h8, hn0, hn1, hn2, hn3, hn4, Nat.reduceEqDiff, ite_true, ite_false,
          eq_self_iff_true, if_true, if_false] at h
        all_goals try (repeat' split at h)
        all_goals try exact step_err_ne_ok h
        all_goals try exact step_none_ne_some h
        all_goals try simp only [Option.some.injEq, Except.ok.injEq, Prod.mk.injEq] at h
        all_goals obtain ⟨hc', -⟩ := h
        all_goals subst hc'
        all_goals refine ⟨?_, ?_, ?_, ?_, ?_, ?_, ?_⟩
        all_goals try dsimp only
        all_goals
                  first
            | exact hreg
            | exact hmem
            | exact hstk
            | exact hend
            | exact hdtB
            | exact hstB
            | exact hreg _
            | ((intro j; try simp only [setByte, wrappingAdd8, wrappingSub8]; repeat' split) <;>
                first
                  | exact hreg _
                  | exact hmem _
                  | exact hnnB
                  | exact hdtB
                  | exact lt256_0
                  | exact lt256_1
                  | exact Nat.mod_lt _ pos256
                  | exact or_lt_256 (hreg _) (hreg _)
                  | exact xor_lt_256 (hreg _) (hreg _)
                  | exact and_lt_256 _ (hreg _)
                  | exact and_lt_256 _ hnnB
                  | exact and_lt_256 _ lt256_1
                  | exact and_lt_256 _ lt256_128
                  | exact and_lt_256 _ lt256_255
                  | exact shiftRight_lt_256 (hreg _) _
                  | exact shiftRight_lt_256 hnnB _
                  | exact shiftRight_lt_256 (and_lt_256 _ lt256_1) _
                  | exact shiftRight_lt_256 (and_lt_256 _ lt256_128) _
                  | exact lt_of_lt_of_le (Nat.mod_lt _ pos2) le256_2
                  | exact lt_of_le_of_lt (Nat.div_le_self _ _) (hreg _)
                  | exact lt_of_le_of_lt (le_trans (Nat.div_le_self _ _) (Nat.mod_le _ _)) (hreg _)
                  | exact lt_of_le_of_lt (Nat.mod_le _ _) (hreg _)
                  | (refine hEnv _ ?_; assumption)
                  | assumption
                  | omega)
            | (simp only [List.length_cons]; omega)
            | (split <;> omega)
            | omega
      by_cases hn5 : instr &&& 0x000f = 0x5
      · simp only [h0, h1, h2, h3, h4, h5, h6, h7, h8, hn0, hn1, hn2, hn3, hn4, hn5, Nat.reduceEqDiff, ite_true, ite_false,
          eq_self_iff_true, if_true, if_false] at h
        all_goals try (repeat' split at h)
        all_goals try exact step_err_ne_ok h
        all_goals try exact step_none_ne_some h
        all_goals try simp only [Option.some.injEq, Except.ok.injEq, Prod.mk.injEq] at h
        all_goals obtain ⟨hc', -⟩ := h
        all_goals subst hc'
        all_goals refine ⟨?_, ?_, ?_, ?_, ?_, ?_, ?_⟩
        all_goals try dsimp only
        all_goals
                  first
            | exact hreg
            | exact hmem
            | exact hstk
            | exact hend
            | exact hdtB
            | exact hstB
            | exact hreg _
            | ((intro j; try simp only [setByte, wrappingAdd8, wrappingSub8]; repeat' split) <;>
                first
                  | exact hreg _
                  | exact hmem _
                  | exact hnnB
                  | exact hdtB
                  | exact lt256_0
                  | exact lt256_1
                  | exact Nat.mod_lt _ pos256
                  | exact or_lt_256 (hreg _) (hreg _)
                  | exact xor_lt_256 (hreg _) (hreg _)
                  | exact and_lt_256 _ (hreg _)
                  | exact and_lt_256 _ hnnB
                  | exact and_lt_256 _ lt256_1
                  | exact and_lt_256 _ lt256_128
                  | exact and_lt_256 _ lt256_255
                  | exact shiftRight_lt_256 (hreg _) _
                  | exact shiftRight_lt_256 hnnB _
                  | exact shiftRight_lt_256 (and_lt_256 _ lt256_1) _
                  | exact shiftRight_lt_256 (and_lt_256 _ lt256_128) _
                  | exact lt_of_lt_of_le (Nat.mod_lt _ pos2) le256_2
                  | exact lt_of_le_of_lt (Nat.div_le_self _ _) (hreg _)
                  | exact lt_of_le_of_lt (le_trans (Nat.div_le_self _ _) (Nat.mod_le _ _)) (hreg _)
                  | exact lt_of_le_of_lt (Nat.mod_le _ _) (hreg _)
                  | (refine hEnv _ ?_; assumption)
                  | assumption
                  | omega)
            | (simp only [List.length_cons]; omega)
            | (split <;> omega)
            | omega
      by_cases hn6 : instr &&& 0x000f = 0x6
      · simp only [h0, h1, h2, h3, h4, h5, h6, h7, h8, hn0, hn1, hn2, hn3, hn4, hn5, hn6, Nat.reduceEqDiff, ite_true, ite_false,
          eq_self_iff_true, if_true, if_false] at h
        all_goals try (repeat' split at h)
        all_goals try exact step_err_ne_ok h
        all_goals try exact step_none_ne_some h
        all_goals try simp only [Option.some.injEq, Except.ok.injEq, Prod.mk.injEq] at h
        all_goals obtain ⟨hc', -⟩ := h
        all_goals subst hc'
        all_goals refine ⟨?_, ?_, ?_, ?_, ?_, ?_, ?_⟩
        all_goals try dsimp only
        all_goals
                  first
            | exact hreg
            | exact hmem
            | exact hstk
            | exact hend
            | exact hdtB
            | exact hstB
            | exact hreg _
            | ((intro j; try simp only [setByte, wrappingAdd8, wrappingSub8]; repeat' split) <;>
                first
                  | exact hreg _
                  | exact hmem _
                  | exact hnnB
                  | exact hdtB
                  | exact lt256_0
                  | exact lt256_1
                  | exact Nat.mod_lt _ pos256
                  | exact or_lt_256 (hreg _) (hreg _)
                  | exact xor_lt_256 (hreg _) (hreg _)
                  | exact and_lt_256 _ (hreg _)
                  | exact and_lt_256 _ hnnB
                  | exact and_lt_256 _ lt256_1
                  | exact and_lt_256 _ lt256_128
                  | exact and_lt_256 _ lt256_255
                  | exact shiftRight_lt_256 (hreg _) _
                  | exact shiftRight_lt_256 hnnB _
                  | exact shiftRight_lt_256 (and_lt_256 _ lt256_1) _
                  | exact shiftRight_lt_256 (and_lt_256 _ lt256_128) _
                  | exact lt_of_lt_of_le (Nat.mod_lt _ pos2) le256_2
                  | exact lt_of_le_of_lt (Nat.div_le_self _ _) (hreg _)
                  | exact lt_of_le_of_lt (le_trans (Nat.div_le_self _ _) (Nat.mod_le _ _)) (hreg _)
                  | exact lt_of_le_of_lt (Nat.mod_le _ _) (hreg _)
                  | (refine hEnv _ ?_; assumption)
                  | assumption
                  | omega)
            | (simp only [List.length_cons]; omega)
            | (split <;> omega)
            | omega
      by_cases hn7 : instr &&& 0x000f = 0x7
      · simp only [h0, h1, h2, h3, h4, h5, h6, h7, h8, hn0, hn1, hn2, hn3, hn4, hn5, hn6, hn7, Nat.reduceEqDiff, ite_true, ite_false,
          eq_self_iff_true, if_true, if_false] at h
        all_goals try (repeat' split at h)
        all_goals try exact step_err_ne_ok h
        all_goals try exact step_none_ne_some h
        all_goals try simp only [Option.some.injEq, Except.ok.injEq, Prod.mk.injEq] at h
        all_goals obtain ⟨hc', -⟩ := h
        all_goals subst hc'
        all_goals refine ⟨?_, ?_, ?_, ?_, ?_, ?_, ?_⟩
        all_goals try dsimp only
        all_goals
                  first
            | exact hreg
            | exact hmem
            | exact hstk
            | exact hend
            | exact hdtB
            | exact hstB
            | exact hreg _
            | ((intro j; try simp only [setByte, wrappingAdd8, wrappingSub8]; repeat' split) <;>
                first
                  | exact hreg _
                  | exact hmem _
                  | exact hnnB
                  | exact hdtB
                  | exact lt256_0
                  | exact lt256_1
                  | exact Nat.mod_lt _ pos256
                  | exact or_lt_256 (hreg _) (hreg _)
                  | exact xor_lt_256 (hreg _) (hreg _)
                  | exact and_lt_256 _ (hreg _)
                  | exact and_lt_256 _ hnnB
                  | exact and_lt_256 _ lt256_1
                  | exact and_lt_256 _ lt256_128
                  | exact and_lt_256 _ lt256_255
                  | exact shiftRight_lt_256 (hreg _) _
                  | exact shiftRight_lt_256 hnnB _
                  | exact shiftRight_lt_256 (and_lt_256 _ lt256_1) _
                  | exact shiftRight_lt_256 (and_lt_256 _ lt256_128) _
                  | exact lt_of_lt_of_le (Nat.mod_lt _ pos2) le256_2
                  | exact lt_of_le_of_lt (Nat.div_le_self _ _) (hreg _)
                  | exact lt_of_le_of_lt (le_trans (Nat.div_le_self _ _) (Nat.mod_le _ _)) (hreg _)
                  | exact lt_of_le_of_lt (Nat.mod_le _ _) (hreg _)
                  | (refine hEnv _ ?_; assumption)
                  | assumption
                  | omega)
            | (simp only [List.length_cons]; omega)
            | (split <;> omega)
            | omega
      by_cases hn8 : instr &&& 0x000f = 0xE
      · simp only [h0, h1, h2, h3, h4, h5, h6, h7, h8, hn0, hn1, hn2, hn3, hn4, hn5, hn6, hn7, hn8, Nat.reduceEqDiff, ite_true, ite_false,
          eq_self_iff_true, if_true, if_false] at h
        all_goals try (repeat' split at h)
        all_goals try exact step_err_ne_ok h
        all_goals try exact step_none_ne_some h
        all_goals try simp only [Option.some.injEq, Except.ok.injEq, Prod.mk.injEq] at h
        all_goals obtain ⟨hc', -⟩ := h
        all_goals subst hc'
        all_goals refine ⟨?_, ?_, ?_, ?_, ?_, ?_, ?_⟩
        all_goals try dsimp only
        all_goals
                  first
            | exact hreg
            | exact hmem
            | exact hstk
            | exact hend
            | exact hdtB
            | exact hstB
            | exact hreg _
            | ((intro j; try simp only [setByte, wrappingAdd8, wrappingSub8]; repeat' split) <;>
                first
                  | exact hreg _
                  | exact hmem _
                  | exact hnnB
                  | exact hdtB
                  | exact lt256_0
                  | exact lt256_1
                  | exact Nat.mod_lt _ pos256
                  | exact or_lt_256 (hreg _) (hreg _)
                  | exact xor_lt_256 (hreg _) (hreg _)
                  | exact and_lt_256 _ (hreg _)
                  | exact and_lt_256 _ hnnB
                  | exact and_lt_256 _ lt256_1
                  | exact and_lt_256 _ lt256_128
                  | exact and_lt_256 _ lt256_255
                  | exact shiftRight_lt_256 (hreg _) _
                  | exact shiftRight_lt_256 hnnB _
                  | exact shiftRight_lt_256 (and_lt_256 _ lt256_1) _
                  | exact shiftRight_lt_256 (and_lt_256 _ lt256_128) _
                  | exact lt_of_lt_of_le (Nat.mod_lt _ pos2) le256_2
                  | exact lt_of_le_of_lt (Nat.div_le_self _ _) (hreg _)
                  | exact lt_of_le_of_lt (le_trans (Nat.div_le_self _ _) (Nat.mod_le _ _)) (hreg _)
                  | exact lt_of_le_of_lt (Nat.mod_le _ _) (hreg _)
                  | (refine hEnv _ ?_; assumption)
                  | assumption
                  | omega)
            | (simp only [List.length_cons]; omega)
            | (split <;> omega)
            | omega
      simp only [h0, h1, h2, h3, h4, h5, h6, h7, h8, hn0, hn1, hn2, hn3, hn4, hn5, hn6, hn7, hn8, Nat.reduceEqDiff, ite_true, ite_false,
        eq_self_iff_true, if_true, if_false] at h
      exact step_err_ne_ok h
    by_cases h9 : instr &&& 0xf000 = 0x9000
    · simp only [h0, h1, h2, h3, h4, h5, h6, h7, h8, h9, Nat.reduceEqDiff, ite_true, ite_false,
        eq_self_iff_true, if_true, if_false] at h
      all_goals try (repeat' split at h)
      all_goals try exact step_err_ne_ok h
      all_goals try exact step_none_ne_some h
      all_goals try simp only [Option.some.injEq, Except.ok.injEq, Prod.mk.injEq] at h
      all_goals obtain ⟨hc', -⟩ := h
      all_goals subst hc'
      all_goals refine ⟨?_, ?_, ?_, ?_, ?_, ?_, ?_⟩
      all_goals try dsimp only
      all_goals
                first
          | exact hreg
          | exact hmem
          | exact hstk
          | exact hend
          | exact hdtB
          | exact hstB
          | exact hreg _
          | ((intro j; try simp only [setByte, wrappingAdd8, wrappingSub8]; repeat' split) <;>
              first
                | exact hreg _
                | exact hmem _
                | exact hnnB
                | exact hdtB
                | exact lt256_0
                | exact lt256_1
                | exact Nat.mod_lt _ pos256
                | exact or_lt_256 (hreg _) (hreg _)
                | exact xor_lt_256 (hreg _) (hreg _)
                | exact and_lt_256 _ (hreg _)
                | exact and_lt_256 _ hnnB
                | exact and_lt_256 _ lt256_1
                | exact and_lt_256 _ lt256_128
                | exact and_lt_256 _ lt256_255
                | exact shiftRight_lt_256 (hreg _) _
                | exact shiftRight_lt_256 hnnB _
                | exact shiftRight_lt_256 (and_lt_256 _ lt256_1) _
                | exact shiftRight_lt_256 (and_lt_256 _ lt256_128) _
                | exact lt_of_lt_of_le (Nat.mod_lt _ pos2) le256_2
                | exact lt_of_le_of_lt (Nat.div_le_self _ _) (hreg _)
                | exact lt_of_le_of_lt (le_trans (Nat.div_le_self _ _) (Nat.mod_le _ _)) (hreg _)
                | exact lt_of_le_of_lt (Nat.mod_le _ _) (hreg _)
                | (refine hEnv _ ?_; assumption)
                | assumption
                | omega)
          | (simp only [List.length_cons]; omega)
          | (split <;> omega)
          | omega
    by_cases ha : instr &&& 0xf000 = 0xa000
    · simp only [h0, h1, h2, h3, h4, h5, h6, h7, h8, h9, ha, Nat.reduceEqDiff, ite_true, ite_false,
        eq_self_iff_true, if_true, if_false] at h
      all_goals try (repeat' split at h)
      all_goals try exact step_err_ne_ok h
      all_goals try exact step_none_ne_some h
      all_goals try simp only [Option.some.injEq, Except.ok.injEq, Prod.mk.injEq] at h
      all_goals obtain ⟨hc', -⟩ := h
      all_goals subst hc'
      all_goals refine ⟨?_, ?_, ?_, ?_, ?_, ?_, ?_⟩
      all_goals try dsimp only
      all_goals
                first
          | exact hreg
          | exact hmem
          | exact hstk
          | exact hend
          | exact hdtB
          | exact hstB
          | exact hreg _
          | ((intro j; try simp only [setByte, wrappingAdd8, wrappingSub8]; repeat' split) <;>
              first
                | exact hreg _
                | exact hmem _
                | exact hnnB
                | exact hdtB
                | exact lt256_0
                | exact lt256_1
                | exact Nat.mod_lt _ pos256
                | exact or_lt_256 (hreg _) (hreg _)
                | exact xor_lt_256 (hreg _) (hreg _)
                | exact and_lt_256 _ (hreg _)
                | exact and_lt_256 _ hnnB
                | exact and_lt_256 _ lt256_1
                | exact and_lt_256 _ lt256_128
                | exact and_lt_256 _ lt256_255
                | exact shiftRight_lt_256 (hreg _) _
                | exact shiftRight_lt_256 hnnB _
                | exact shiftRight_lt_256 (and_lt_256 _ lt256_1) _
                | exact shiftRight_lt_256 (and_lt_256 _ lt256_128) _
                | exact lt_of_lt_of_le (Nat.mod_lt _ pos2) le256_2
                | exact lt_of_le_of_lt (Nat.div_le_self _ _) (hreg _)
                | exact lt_of_le_of_lt (le_trans (Nat.div_le_self _ _) (Nat.mod_le _ _)) (hreg _)
                | exact lt_of_le_of_lt (Nat.mod_le _ _) (hreg _)
                | (refine hEnv _ ?_; assumption)
                | assumption
                | omega)
          | (simp only [List.length_cons]; omega)
          | (split <;> omega)
          | omega
    by_cases hb : instr &&& 0xf000 = 0xb000
    · simp only [h0, h1, h2, h3, h4, h5, h6, h7, h8, h9, ha, hb, Nat.reduceEqDiff, ite_true, ite_false,
        eq_self_iff_true, if_true, if_false] at h
      all_goals try (repeat' split at h)
      all_goals try exact step_err_ne_ok h
      all_goals try exact step_none_ne_some h
      all_goals try simp only [Option.some.injEq, Except.ok.injEq, Prod.mk.injEq] at h
      all_goals obtain ⟨hc', -⟩ := h
      all_goals subst hc'
      all_goals refine ⟨?_, ?_, ?_, ?_, ?_, ?_, ?_⟩
      all_goals try dsimp only
      all_goals
                first
          | exact hreg
          | exact hmem
          | exact hstk
          | exact hend
          | exact hdtB
          | exact hstB
          | exact hreg _
          | ((intro j; try simp only [setByte, wrappingAdd8, wrappingSub8]; repeat' split) <;>
              first
                | exact hreg _
                | exact hmem _
                | exact hnnB
                | exact hdtB
                | exact lt256_0
                | exact lt256_1
                | exact Nat.mod_lt _ pos256
                | exact or_lt_256 (hreg _) (hreg _)
                | exact xor_lt_256 (hreg _) (hreg _)
                | exact and_lt_256 _ (hreg _)
                | exact and_lt_256 _ hnnB
                | exact and_lt_256 _ lt256_1
                | exact and_lt_256 _ lt256_128
                | exact and_lt_256 _ lt256_255
                | exact shiftRight_lt_256 (hreg _) _
                | exact shiftRight_lt_256 hnnB _
                | exact shiftRight_lt_256 (and_lt_256 _ lt256_1) _
                | exact shiftRight_lt_256 (and_lt_256 _ lt256_128) _
                | exact lt_of_lt_of_le (Nat.mod_lt _ pos2) le256_2
                | exact lt_of_le_of_lt (Nat.div_le_self _ _) (hreg _)
                | exact lt_of_le_of_lt (le_trans (Nat.div_le_self _ _) (Nat.mod_le _ _)) (hreg _)
                | exact lt_of_le_of_lt (Nat.mod_le _ _) (hreg _)
                | (refine hEnv _ ?_; assumption)
                | assumption
                | omega)
          | (simp only [List.length_cons]; omega)
          | (split <;> omega)
          | omega
    by_cases hcc : instr &&& 0xf000 = 0xc000
    · simp only [h0, h1, h2, h3, h4, h5, h6, h7, h8, h9, ha, hb, hcc, Nat.reduceEqDiff, ite_true, ite_false,
        eq_self_iff_true, if_true, if_false] at h
      all_goals try (repeat' split at h)
      all_goals try exact step_err_ne_ok h
      all_goals try exact step_none_ne_some h
      all_goals try simp only [Option.some.injEq, Except.ok.injEq, Prod.mk.injEq] at h
      all_goals obtain ⟨hc', -⟩ := h
      all_goals subst hc'
      all_goals refine ⟨?_, ?_, ?_, ?_, ?_, ?_, ?_⟩
      all_goals try dsimp only
      all_goals
                first
          | exact hreg
          | exact hmem
          | exact hstk
          | exact hend
          | exact hdtB
          | exact hstB
          | exact hreg _
          | ((intro j; try simp only [setByte, wrappingAdd8, wrappingSub8]; repeat' split) <;>
              first
                | exact hreg _
                | exact hmem _
                | exact hnnB
                | exact hdtB
                | exact lt256_0
                | exact lt256_1
                | exact Nat.mod_lt _ pos256
                | exact or_lt_256 (hreg _) (hreg _)
                | exact xor_lt_256 (hreg _) (hreg _)
                | exact and_lt_256 _ (hreg _)
                | exact and_lt_256 _ hnnB
                | exact and_lt_256 _ lt256_1
                | exact and_lt_256 _ lt256_128
                | exact and_lt_256 _ lt256_255
                | exact shiftRight_lt_256 (hreg _) _
                | exact shiftRight_lt_256 hnnB _
                | exact shiftRight_lt_256 (and_lt_256 _ lt256_1) _
                | exact shiftRight_lt_256 (and_lt_256 _ lt256_128) _
                | exact lt_of_lt_of_le (Nat.mod_lt _ pos2) le256_2
                | exact lt_of_le_of_lt (Nat.div_le_self _ _) (hreg _)
                | exact lt_of_le_of_lt (le_trans (Nat.div_le_self _ _) (Nat.mod_le _ _)) (hreg _)
                | exact lt_of_le_of_lt (Nat.mod_le _ _) (hreg _)
                | (refine hEnv _ ?_; assumption)
                | assumption
                | omega)
          | (simp only [List.length_cons]; omega)
          | (split <;> omega)
          | omega
    by_cases hd : instr &&& 0xf000 = 0xd000
    · simp only [h0, h1, h2, h3, h4, h5, h6, h7, h8, h9, ha, hb, hcc, hd, Nat.reduceEqDiff, ite_true, ite_false,
        eq_self_iff_true, if_true, if_false] at h
      split at h
      · exact step_none_ne_some h
      · rename_i mem2 d2 collided heq
        simp only [Option.some.injEq, Except.ok.injEq, Prod.mk.injEq] at h
        obtain ⟨hc', -⟩ := h
        subst hc'
        refine ⟨?_, ?_, ?_, ?_, ?_, ?_, ?_⟩
        all_goals try dsimp only
        all_goals
          first
            | exact draw_sprite_memOk hmem heq
            | exact hstk
            | exact hend
            | exact hdtB
            | exact hstB
            | ((intro j; try simp only [setByte]; repeat' split) <;>
                first
                  | exact hreg _
                  | exact lt256_0
                  | exact lt256_1)
            | omega
    by_cases he : instr &&& 0xf000 = 0xe000
    · by_cases hke0 : instr &&& 0x00ff = 0x9e
      · simp only [h0, h1, h2, h3, h4, h5, h6, h7, h8, h9, ha, hb, hcc, hd, he, hke0, Nat.reduceEqDiff, ite_true, ite_false,
          eq_self_iff_true, if_true, if_false] at h
        all_goals try (repeat' split at h)
        all_goals try exact step_err_ne_ok h
        all_goals try exact step_none_ne_some h
        all_goals try simp only [Option.some.injEq, Except.ok.injEq, Prod.mk.injEq] at h
        all_goals obtain ⟨hc', -⟩ := h
        all_goals subst hc'
        all_goals refine ⟨?_, ?_, ?_, ?_, ?_, ?_, ?_⟩
        all_goals try dsimp only
        all_goals
                  first
            | exact hreg
            | exact hmem
            | exact hstk
            | exact hend
            | exact hdtB
            | exact hstB
            | exact hreg _
            | ((intro j; try simp only [setByte, wrappingAdd8, wrappingSub8]; repeat' split) <;>
                first
                  | exact hreg _
                  | exact hmem _
                  | exact hnnB
                  | exact hdtB
                  | exact lt256_0
                  | exact lt256_1
                  | exact Nat.mod_lt _ pos256
                  | exact or_lt_256 (hreg _) (hreg _)
                  | exact xor_lt_256 (hreg _) (hreg _)
                  | exact and_lt_256 _ (hreg _)
                  | exact and_lt_256 _ hnnB
                  | exact and_lt_256 _ lt256_1
                  | exact and_lt_256 _ lt256_128
                  | exact and_lt_256 _ lt256_255
                  | exact shiftRight_lt_256 (hreg _) _
                  | exact shiftRight_lt_256 hnnB _
                  | exact shiftRight_lt_256 (and_lt_256 _ lt256_1) _
                  | exact shiftRight_lt_256 (and_lt_256 _ lt256_128) _
                  | exact lt_of_lt_of_le (Nat.mod_lt _ pos2) le256_2
                  | exact lt_of_le_of_lt (Nat.div_le_self _ _) (hreg _)
                  | exact lt_of_le_of_lt (le_trans (Nat.div_le_self _ _) (Nat.mod_le _ _)) (hreg _)
                  | exact lt_of_le_of_lt (Nat.mod_le _ _) (hreg _)
                  | (refine hEnv _ ?_; assumption)
                  | assumption
                  | omega)
            | (simp only [List.length_cons]; omega)
            | (split <;> omega)
            | omega
      by_cases hke1 : instr &&& 0x00ff = 0xa1
      · simp only [h0, h1, h2, h3, h4, h5, h6, h7, h8, h9, ha, hb, hcc, hd, he, hke0, hke1, Nat.reduceEqDiff, ite_true, ite_false,
          eq_self_iff_true, if_true, if_false] at h
        all_goals try (repeat' split at h)
        all_goals try exact step_err_ne_ok h
        all_goals try exact step_none_ne_some h
        all_goals try simp only [Option.some.injEq, Except.ok.injEq, Prod.mk.injEq] at h
        all_goals obtain ⟨hc', -⟩ := h
        all_goals subst hc'
        all_goals refine ⟨?_, ?_, ?_, ?_, ?_, ?_, ?_⟩
        all_goals try dsimp only
        all_goals
                  first
            | exact hreg
            | exact hmem
            | exact hstk
            | exact hend
            | exact hdtB
            | exact hstB
            | exact hreg _
            | ((intro j; try simp only [setByte, wrappingAdd8, wrappingSub8]; repeat' split) <;>
                first
                  | exact hreg _
                  | exact hmem _
                  | exact hnnB
                  | exact hdtB
                  | exact lt256_0
                  | exact lt256_1
                  | exact Nat.mod_lt _ pos256
                  | exact or_lt_256 (hreg _) (hreg _)
                  | exact xor_lt_256 (hreg _) (hreg _)
                  | exact and_lt_256 _ (hreg _)
                  | exact and_lt_256 _ hnnB
                  | exact and_lt_256 _ lt256_1
                  | exact and_lt_256 _ lt256_128
                  | exact and_lt_256 _ lt256_255
                  | exact shiftRight_lt_256 (hreg _) _
                  | exact shiftRight_lt_256 hnnB _
                  | exact shiftRight_lt_256 (and_lt_256 _ lt256_1) _
                  | exact shiftRight_lt_256 (and_lt_256 _ lt256_128) _
                  | exact lt_of_lt_of_le (Nat.mod_lt _ pos2) le256_2
                  | exact lt_of_le_of_lt (Nat.div_le_self _ _) (hreg _)
                  | exact lt_of_le_of_lt (le_trans (Nat.div_le_self _ _) (Nat.mod_le _ _)) (hreg _)
                  | exact lt_of_le_of_lt (Nat.mod_le _ _) (hreg _)
                  | (refine hEnv _ ?_; assumption)
                  | assumption
                  | omega)
            | (simp only [List.length_cons]; omega)
            | (split <;> omega)
            | omega
      simp only [h0, h1, h2, h3, h4, h5, h6, h7, h8, h9, ha, hb, hcc, hd, he, hke0, hke1, Nat.reduceEqDiff, ite_true, ite_false,
        eq_self_iff_true, if_true, if_false] at h
      exact step_err_ne_ok h
    by_cases hff : instr &&& 0xf000 = 0xf000
    · by_cases hkf0 : instr &&& 0x00ff = 0x07
      · simp only [h0, h1, h2, h3, h4, h5, h6, h7, h8, h9, ha, hb, hcc, hd, he, hff, hkf0, Nat.reduceEqDiff, ite_true, ite_false,
          eq_self_iff_true, if_true, if_false] at h
        all_goals try (repeat' split at h)
        all_goals try exact step_err_ne_ok h
        all_goals try exact step_none_ne_some h
        all_goals try simp only [Option.some.injEq, Except.ok.injEq, Prod.mk.injEq] at h
        all_goals obtain ⟨hc', -⟩ := h
        all_goals subst hc'
        all_goals refine ⟨?_, ?_, ?_, ?_, ?_, ?_, ?_⟩
        all_goals try dsimp only
        all_goals
                  first
            | exact hreg
            | exact hmem
            | exact hstk
            | exact hend
            | exact hdtB
            | exact hstB
            | exact hreg _
            | ((intro j; try simp only [setByte, wrappingAdd8, wrappingSub8]; repeat' split) <;>
                first
                  | exact hreg _
                  | exact hmem _
                  | exact hnnB
                  | exact hdtB
                  | exact lt256_0
                  | exact lt256_1
                  | exact Nat.mod_lt _ pos256
                  | exact or_lt_256 (hreg _) (hreg _)
                  | exact xor_lt_256 (hreg _) (hreg _)
                  | exact and_lt_256 _ (hreg _)
                  | exact and_lt_256 _ hnnB
                  | exact and_lt_256 _ lt256_1
                  | exact and_lt_256 _ lt256_128
                  | exact and_lt_256 _ lt256_255
                  | exact shiftRight_lt_256 (hreg _) _
                  | exact shiftRight_lt_256 hnnB _
                  | exact shiftRight_lt_256 (and_lt_256 _ lt256_1) _
                  | exact shiftRight_lt_256 (and_lt_256 _ lt256_128) _
                  | exact lt_of_lt_of_le (Nat.mod_lt _ pos2) le256_2
                  | exact lt_of_le_of_lt (Nat.div_le_self _ _) (hreg _)
                  | exact lt_of_le_of_lt (le_trans (Nat.div_le_self _ _) (Nat.mod_le _ _)) (hreg _)
                  | exact lt_of_le_of_lt (Nat.mod_le _ _) (hreg _)
                  | (refine hEnv _ ?_; assumption)
                  | assumption
                  | omega)
            | (simp only [List.length_cons]; omega)
            | (split <;> omega)
            | omega
      by_cases hkf1 : instr &&& 0x00ff = 0x0A
      · simp only [h0, h1, h2, h3, h4, h5, h6, h7, h8, h9, ha, hb, hcc, hd, he, hff, hkf0, hkf1, Nat.reduceEqDiff, ite_true, ite_false,
          eq_self_iff_true, if_true, if_false] at h
        all_goals try (repeat' split at h)
        all_goals try exact step_err_ne_ok h
        all_goals try exact step_none_ne_some h
        all_goals try simp only [Option.some.injEq, Except.ok.injEq, Prod.mk.injEq] at h
        all_goals obtain ⟨hc', -⟩ := h
        all_goals subst hc'
        all_goals refine ⟨?_, ?_, ?_, ?_, ?_, ?_, ?_⟩
        all_goals try dsimp only
        all_goals
                  first
            | exact hreg
            | exact hmem
            | exact hstk
            | exact hend
            | exact hdtB
            | exact hstB
            | exact hreg _
            | ((intro j; try simp only [setByte, wrappingAdd8, wrappingSub8]; repeat' split) <;>
                first
                  | exact hreg _
                  | exact hmem _
                  | exact hnnB
                  | exact hdtB
                  | exact lt256_0
                  | exact lt256_1
                  | exact Nat.mod_lt _ pos256
                  | exact or_lt_256 (hreg _) (hreg _)
                  | exact xor_lt_256 (hreg _) (hreg _)
                  | exact and_lt_256 _ (hreg _)
                  | exact and_lt_256 _ hnnB
                  | exact and_lt_256 _ lt256_1
                  | exact and_lt_256 _ lt256_128
                  | exact and_lt_256 _ lt256_255
                  | exact shiftRight_lt_256 (hreg _) _
                  | exact shiftRight_lt_256 hnnB _
                  | exact shiftRight_lt_256 (and_lt_256 _ lt256_1) _
                  | exact shiftRight_lt_256 (and_lt_256 _ lt256_128) _
                  | exact lt_of_lt_of_le (Nat.mod_lt _ pos2) le256_2
                  | exact lt_of_le_of_lt (Nat.div_le_self _ _) (hreg _)
                  | exact lt_of_le_of_lt (le_trans (Nat.div_le_self _ _) (Nat.mod_le _ _)) (hreg _)
                  | exact lt_of_le_of_lt (Nat.mod_le _ _) (hreg _)
                  | (refine hEnv _ ?_; assumption)
                  | assumption
                  | omega)
            | (simp only [List.length_cons]; omega)
            | (split <;> omega)
            | omega
      by_cases hkf2 : instr &&& 0x00ff = 0x15
      · simp only [h0, h1, h2, h3, h4, h5, h6, h7, h8, h9, ha, hb, hcc, hd, he, hff, hkf0, hkf1, hkf2, Nat.reduceEqDiff, ite_true, ite_false,
          eq_self_iff_true, if_true, if_false] at h
        all_goals try (repeat' split at h)
        all_goals try exact step_err_ne_ok h
        all_goals try exact step_none_ne_some h
        all_goals try simp only [Option.some.injEq, Except.ok.injEq, Prod.mk.injEq] at h
        all_goals obtain ⟨hc', -⟩ := h
        all_goals subst hc'
        all_goals refine ⟨?_, ?_, ?_, ?_, ?_, ?_, ?_⟩
        all_goals try dsimp only
        all_goals
                  first
            | exact hreg
            | exact hmem
            | exact hstk
            | exact hend
            | exact hdtB
            | exact hstB
            | exact hreg _
            | ((intro j; try simp only [setByte, wrappingAdd8, wrappingSub8]; repeat' split) <;>
                first
                  | exact hreg _
                  | exact hmem _
                  | exact hnnB
                  | exact hdtB
                  | exact lt256_0
                  | exact lt256_1
                  | exact Nat.mod_lt _ pos256
                  | exact or_lt_256 (hreg _) (hreg _)
                  | exact xor_lt_256 (hreg _) (hreg _)
                  | exact and_lt_256 _ (hreg _)
                  | exact and_lt_256 _ hnnB
                  | exact and_lt_256 _ lt256_1
                  | exact and_lt_256 _ lt256_128
                  | exact and_lt_256 _ lt256_255
                  | exact shiftRight_lt_256 (hreg _) _
                  | exact shiftRight_lt_256 hnnB _
                  | exact shiftRight_lt_256 (and_lt_256 _ lt256_1) _
                  | exact shiftRight_lt_256 (and_lt_256 _ lt256_128) _
                  | exact lt_of_lt_of_le (Nat.mod_lt _ pos2) le256_2
                  | exact lt_of_le_of_lt (Nat.div_le_self _ _) (hreg _)
                  | exact lt_of_le_of_lt (le_trans (Nat.div_le_self _ _) (Nat.mod_le _ _)) (hreg _)
                  | exact lt_of_le_of_lt (Nat.mod_le _ _) (hreg _)
                  | (refine hEnv _ ?_; assumption)
                  | assumption
                  | omega)
            | (simp only [List.length_cons]; omega)
            | (split <;> omega)
            | omega
      by_cases hkf3 : instr &&& 0x00ff = 0x18
      · simp only [h0, h1, h2, h3, h4, h5, h6, h7, h8, h9, ha, hb, hcc, hd, he, hff, hkf0, hkf1, hkf2, hkf3, Nat.reduceEqDiff, ite_true, ite_false,
          eq_self_iff_true, if_true, if_false] at h
        all_goals try (repeat' split at h)
        all_goals try exact step_err_ne_ok h
        all_goals try exact step_none_ne_some h
        all_goals try simp only [Option.some.injEq, Except.ok.injEq, Prod.mk.injEq] at h
        all_goals obtain ⟨hc', -⟩ := h
        all_goals subst hc'
        all_goals refine ⟨?_, ?_, ?_, ?_, ?_, ?_, ?_⟩
        all_goals try dsimp only
        all_goals
                  first
            | exact hreg
            | exact hmem
            | exact hstk
            | exact hend
            | exact hdtB
            | exact hstB
            | exact hreg _
            | ((intro j; try simp only [setByte, wrappingAdd8, wrappingSub8]; repeat' split) <;>
                first
                  | exact hreg _
                  | exact hmem _
                  | exact hnnB
                  | exact hdtB
                  | exact lt256_0
                  | exact lt256_1
                  | exact Nat.mod_lt _ pos256
                  | exact or_lt_256 (hreg _) (hreg _)
                  | exact xor_lt_256 (hreg _) (hreg _)
                  | exact and_lt_256 _ (hreg _)
                  | exact and_lt_256 _ hnnB
                  | exact and_lt_256 _ lt256_1
                  | exact and_lt_256 _ lt256_128
                  | exact and_lt_256 _ lt256_255
                  | exact shiftRight_lt_256 (hreg _) _
                  | exact shiftRight_lt_256 hnnB _
                  | exact shiftRight_lt_256 (and_lt_256 _ lt256_1) _
                  | exact shiftRight_lt_256 (and_lt_256 _ lt256_128) _
                  | exact lt_of_lt_of_le (Nat.mod_lt _ pos2) le256_2
                  | exact lt_of_le_of_lt (Nat.div_le_self _ _) (hreg _)
                  | exact lt_of_le_of_lt (le_trans (Nat.div_le_self _ _) (Nat.mod_le _ _)) (hreg _)
                  | exact lt_of_le_of_lt (Nat.mod_le _ _) (hreg _)
                  | (refine hEnv _ ?_; assumption)
                  | assumption
                  | omega)
            | (simp only [List.length_cons]; omega)
            | (split <;> omega)
            | omega
      by_cases hkf4 : instr &&& 0x00ff = 0x1e
      · simp only [h0, h1, h2, h3, h4, h5, h6, h7, h8, h9, ha, hb, hcc, hd, he, hff, hkf0, hkf1, hkf2, hkf3, hkf4, Nat.reduceEqDiff, ite_true, ite_false,
          eq_self_iff_true, if_true, if_false] at h
        all_goals try (repeat' split at h)
        all_goals try exact step_err_ne_ok h
        all_goals try exact step_none_ne_some h
        all_goals try simp only [Option.some.injEq, Except.ok.injEq, Prod.mk.injEq] at h
        all_goals obtain ⟨hc', -⟩ := h
        all_goals subst hc'
        all_goals refine ⟨?_, ?_, ?_, ?_, ?_, ?_, ?_⟩
        all_goals try dsimp only
        all_goals
                  first
            | exact hreg
            | exact hmem
            | exact hstk
            | exact hend
            | exact hdtB
            | exact hstB
            | exact hreg _
            | ((intro j; try simp only [setByte, wrappingAdd8, wrappingSub8]; repeat' split) <;>
                first
                  | exact hreg _
                  | exact hmem _
                  | exact hnnB
                  | exact hdtB
                  | exact lt256_0
                  | exact lt256_1
                  | exact Nat.mod_lt _ pos256
                  | exact or_lt_256 (hreg _) (hreg _)
                  | exact xor_lt_256 (hreg _) (hreg _)
                  | exact and_lt_256 _ (hreg _)
                  | exact and_lt_256 _ hnnB
                  | exact and_lt_256 _ lt256_1
                  | exact and_lt_256 _ lt256_128
                  | exact and_lt_256 _ lt256_255
                  | exact shiftRight_lt_256 (hreg _) _
                  | exact shiftRight_lt_256 hnnB _
                  | exact shiftRight_lt_256 (and_lt_256 _ lt256_1) _
                  | exact shiftRight_lt_256 (and_lt_256 _ lt256_128) _
                  | exact lt_of_lt_of_le (Nat.mod_lt _ pos2) le256_2
                  | exact lt_of_le_of_lt (Nat.div_le_self _ _) (hreg _)
                  | exact lt_of_le_of_lt (le_trans (Nat.div_le_self _ _) (Nat.mod_le _ _)) (hreg _)
                  | exact lt_of_le_of_lt (Nat.mod_le _ _) (hreg _)
                  | (refine hEnv _ ?_; assumption)
                  | assumption
                  | omega)
            | (simp only [List.length_cons]; omega)
            | (split <;> omega)
            | omega
      by_cases hkf5 : instr &&& 0x00ff = 0x29
      · simp only [h0, h1, h2, h3, h4, h5, h6, h7, h8, h9, ha, hb, hcc, hd, he, hff, hkf0, hkf1, hkf2, hkf3, hkf4, hkf5, Nat.reduceEqDiff, ite_true, ite_false,
          eq_self_iff_true, if_true, if_false] at h
        all_goals try (repeat' split at h)
        all_goals try exact step_err_ne_ok h
        all_goals try exact step_none_ne_some h
        all_goals try simp only [Option.some.injEq, Except.ok.injEq, Prod.mk.injEq] at h
        all_goals obtain ⟨hc', -⟩ := h
        all_goals subst hc'
        all_goals refine ⟨?_, ?_, ?_, ?_, ?_, ?_, ?_⟩
        all_goals try dsimp only
        all_goals
                  first
            | exact hreg
            | exact hmem
            | exact hstk
            | exact hend
            | exact hdtB
            | exact hstB
            | exact hreg _
            | ((intro j; try simp only [setByte, wrappingAdd8, wrappingSub8]; repeat' split) <;>
                first
                  | exact hreg _
                  | exact hmem _
                  | exact hnnB
                  | exact hdtB
                  | exact lt256_0
                  | exact lt256_1
                  | exact Nat.mod_lt _ pos256
                  | exact or_lt_256 (hreg _) (hreg _)
                  | exact xor_lt_256 (hreg _) (hreg _)
                  | exact and_lt_256 _ (hreg _)
                  | exact and_lt_256 _ hnnB
                  | exact and_lt_256 _ lt256_1
                  | exact and_lt_256 _ lt256_128
                  | exact and_lt_256 _ lt256_255
                  | exact shiftRight_lt_256 (hreg _) _
                  | exact shiftRight_lt_256 hnnB _
                  | exact shiftRight_lt_256 (and_lt_256 _ lt256_1) _
                  | exact shiftRight_lt_256 (and_lt_256 _ lt256_128) _
                  | exact lt_of_lt_of_le (Nat.mod_lt _ pos2) le256_2
                  | exact lt_of_le_of_lt (Nat.div_le_self _ _) (hreg _)
                  | exact lt_of_le_of_lt (le_trans (Nat.div_le_self _ _) (Nat.mod_le _ _)) (hreg _)
                  | exact lt_of_le_of_lt (Nat.mod_le _ _) (hreg _)
                  | (refine hEnv _ ?_; assumption)
                  | assumption
                  | omega)
            | (simp only [List.length_cons]; omega)
            | (split <;> omega)
            | omega
      by_cases hkf6 : instr &&& 0x00ff = 0x33
      · simp only [h0, h1, h2, h3, h4, h5, h6, h7, h8, h9, ha, hb, hcc, hd, he, hff, hkf0, hkf1, hkf2, hkf3, hkf4, hkf5, hkf6, Nat.reduceEqDiff, ite_true, ite_false,
          eq_self_iff_true, if_true, if_false] at h
        all_goals try (repeat' split at h)
        all_goals try exact step_err_ne_ok h
        all_goals try exact step_none_ne_some h
        all_goals try simp only [Option.some.injEq, Except.ok.injEq, Prod.mk.injEq] at h
        all_goals obtain ⟨hc', -⟩ := h
        all_goals subst hc'
        all_goals refine ⟨?_, ?_, ?_, ?_, ?_, ?_, ?_⟩
        all_goals try dsimp only
        all_goals
                  first
            | exact hreg
            | exact hmem
            | exact hstk
            | exact hend
            | exact hdtB
            | exact hstB
            | exact hreg _
            | ((intro j; try simp only [setByte, wrappingAdd8, wrappingSub8]; repeat' split) <;>
                first
                  | exact hreg _
                  | exact hmem _
                  | exact hnnB
                  | exact hdtB
                  | exact lt256_0
                  | exact lt256_1
                  | exact Nat.mod_lt _ pos256
                  | exact or_lt_256 (hreg _) (hreg _)
                  | exact xor_lt_256 (hreg _) (hreg _)
                  | exact and_lt_256 _ (hreg _)
                  | exact and_lt_256 _ hnnB
                  | exact and_lt_256 _ lt256_1
                  | exact and_lt_256 _ lt256_128
                  | exact and_lt_256 _ lt256_255
                  | exact shiftRight_lt_256 (hreg _) _
                  | exact shiftRight_lt_256 hnnB _
                  | exact shiftRight_lt_256 (and_lt_256 _ lt256_1) _
                  | exact shiftRight_lt_256 (and_lt_256 _ lt256_128) _
                  | exact lt_of_lt_of_le (Nat.mod_lt _ pos2) le256_2
                  | exact lt_of_le_of_lt (Nat.div_le_self _ _) (hreg _)
                  | exact lt_of_le_of_lt (le_trans (Nat.div_le_self _ _) (Nat.mod_le _ _)) (hreg _)
                  | exact lt_of_le_of_lt (Nat.mod_le _ _) (hreg _)
                  | (refine hEnv _ ?_; assumption)
                  | assumption
                  | omega)
            | (simp only [List.length_cons]; omega)
            | (split <;> omega)
            | omega
      by_cases hkf7 : instr &&& 0x00ff = 0x55
      · simp only [h0, h1, h2, h3, h4, h5, h6, h7, h8, h9, ha, hb, hcc, hd, he, hff, hkf0, hkf1, hkf2, hkf3, hkf4, hkf5, hkf6, hkf7, Nat.reduceEqDiff, ite_true, ite_false,
          eq_self_iff_true, if_true, if_false] at h
        all_goals try (repeat' split at h)
        all_goals try exact step_err_ne_ok h
        all_goals try exact step_none_ne_some h
        all_goals try simp only [Option.some.injEq, Except.ok.injEq, Prod.mk.injEq] at h
        all_goals obtain ⟨hc', -⟩ := h
        all_goals subst hc'
        all_goals refine ⟨?_, ?_, ?_, ?_, ?_, ?_, ?_⟩
        all_goals try dsimp only
        all_goals
                  first
            | exact hreg
            | exact hmem
            | exact hstk
            | exact hend
            | exact hdtB
            | exact hstB
            | exact hreg _
            | ((intro j; try simp only [setByte, wrappingAdd8, wrappingSub8]; repeat' split) <;>
                first
                  | exact hreg _
                  | exact hmem _
                  | exact hnnB
                  | exact hdtB
                  | exact lt256_0
                  | exact lt256_1
                  | exact Nat.mod_lt _ pos256
                  | exact or_lt_256 (hreg _) (hreg _)
                  | exact xor_lt_256 (hreg _) (hreg _)
                  | exact and_lt_256 _ (hreg _)
                  | exact and_lt_256 _ hnnB
                  | exact and_lt_256 _ lt256_1
                  | exact and_lt_256 _ lt256_128
                  | exact and_lt_256 _ lt256_255
                  | exact shiftRight_lt_256 (hreg _) _
                  | exact shiftRight_lt_256 hnnB _
                  | exact shiftRight_lt_256 (and_lt_256 _ lt256_1) _
                  | exact shiftRight_lt_256 (and_lt_256 _ lt256_128) _
                  | exact lt_of_lt_of_le (Nat.mod_lt _ pos2) le256_2
                  | exact lt_of_le_of_lt (Nat.div_le_self _ _) (hreg _)
                  | exact lt_of_le_of_lt (le_trans (Nat.div_le_self _ _) (Nat.mod_le _ _)) (hreg _)
                  | exact lt_of_le_of_lt (Nat.mod_le _ _) (hreg _)
                  | (refine hEnv _ ?_; assumption)
                  | assumption
                  | omega)
            | (simp only [List.length_cons]; omega)
            | (split <;> omega)
            | omega
      by_cases hkf8 : instr &&& 0x00ff = 0x65
      · simp only [h0, h1, h2, h3, h4, h5, h6, h7, h8, h9, ha, hb, hcc, hd, he, hff, hkf0, hkf1, hkf2, hkf3, hkf4, hkf5, hkf6, hkf7, hkf8, Nat.reduceEqDiff, ite_true, ite_false,
          eq_self_iff_true, if_true, if_false] at h
        all_goals try (repeat' split at h)
        all_goals try exact step_err_ne_ok h
        all_goals try exact step_none_ne_some h
        all_goals try simp only [Option.some.injEq, Except.ok.injEq, Prod.mk.injEq] at h
        all_goals obtain ⟨hc', -⟩ := h
        all_goals subst hc'
        all_goals refine ⟨?_, ?_, ?_, ?_, ?_, ?_, ?_⟩
        all_goals try dsimp only
        all_goals
                  first
            | exact hreg
            | exact hmem
            | exact hstk
            | exact hend
            | exact hdtB
            | exact hstB
            | exact hreg _
            | ((intro j; try simp only [setByte, wrappingAdd8, wrappingSub8]; repeat' split) <;>
                first
                  | exact hreg _
                  | exact hmem _
                  | exact hnnB
                  | exact hdtB
                  | exact lt256_0
                  | exact lt256_1
                  | exact Nat.mod_lt _ pos256
                  | exact or_lt_256 (hreg _) (hreg _)
                  | exact xor_lt_256 (hreg _) (hreg _)
                  | exact and_lt_256 _ (hreg _)
                  | exact and_lt_256 _ hnnB
                  | exact and_lt_256 _ lt256_1
                  | exact and_lt_256 _ lt256_128
                  | exact and_lt_256 _ lt256_255
                  | exact shiftRight_lt_256 (hreg _) _
                  | exact shiftRight_lt_256 hnnB _
                  | exact shiftRight_lt_256 (and_lt_256 _ lt256_1) _
                  | exact shiftRight_lt_256 (and_lt_256 _ lt256_128) _
                  | exact lt_of_lt_of_le (Nat.mod_lt _ pos2) le256_2
                  | exact lt_of_le_of_lt (Nat.div_le_self _ _) (hreg _)
                  | exact lt_of_le_of_lt (le_trans (Nat.div_le_self _ _) (Nat.mod_le _ _)) (hreg _)
                  | exact lt_of_le_of_lt (Nat.mod_le _ _) (hreg _)
                  | (refine hEnv _ ?_; assumption)
                  | assumption
                  | omega)
            | (simp only [List.length_cons]; omega)
            | (split <;> omega)
            | omega
      simp only [h0, h1, h2, h3, h4, h5, h6, h7, h8, h9, ha, hb, hcc, hd, he, hff, hkf0, hkf1, hkf2, hkf3, hkf4, hkf5, hkf6, hkf7, hkf8, Nat.reduceEqDiff, ite_true, ite_false,
        eq_self_iff_true, if_true, if_false] at h
      exact step_err_ne_ok h
    simp only [h0, h1, h2, h3, h4, h5, h6, h7, h8, h9, ha, hb, hcc, hd, he, hff, ite_true, ite_false, if_true, if_false] at h
    exact step_err_ne_ok h

end Chip8

namespace Chip8

/-- Every entry of a list of bytes read with getD is a byte. -/
theorem getD_lt_256 {l : List Nat} (h : ∀ x ∈ l, x < 256) (a : Nat) :
    l.getD a 0 < 256 := by
  rw [List.getD_eq_getElem?_getD]
  rcases hx : l[a]? with _ | v
  · simp
  · simp only [Option.getD_some]
    exact h v (List.getElem?_mem hx)

/-- The fresh memory holds bytes: the font table entries are u8. -/
theorem initMem_memOk : MemOk initMem :=
  fun a => getD_lt_256 (by decide) a

/-- A fresh Cpu satisfies the machine invariant. -/
theorem init_inv : Inv Cpu.init := by
  refine ⟨?_, initMem_memOk, ?_, ?_, ?_, ?_, ?_⟩ <;>
    first
      | (intro i; norm_num [Cpu.init])
      | norm_num [Cpu.init]
      | simp [Cpu.init]

/-- Loading a program of bytes preserves the machine invariant. -/
theorem add_program_inv {c c' : Cpu} {p : List Nat} (hb : ∀ x ∈ p, x < 256)
    (hInv : Inv c) (h : add_program c p = some (.ok c')) : Inv c' := by
  obtain ⟨hreg, hmem, hpc, hstk, hend, hdt, hst⟩ := hInv
  unfold add_program at h
  split_ifs at h with h1 h2
  · exact Except.noConfusion (Option.some.inj h)
  · simp only [Option.some.injEq, Except.ok.injEq] at h
    subst h
    refine ⟨hreg, ?_, hpc, hstk, ?_, hdt, hst⟩
    · intro a
      dsimp only
      split
      · exact getD_lt_256 hb _
      · exact hmem a
    · dsimp only
      unfold MEM_SIZE at h2
      omega

/-- The no-key, zero-random environment reports no key at all. -/
theorem env0_ok : EnvOk env0 := by
  intro k h
  simp [env0] at h

/-- Preservation over a whole run: the invariant survives any number of
successful steps. -/
theorem runN_inv {envs : Nat → Env} (henv : ∀ k, EnvOk (envs k)) :
    ∀ n c res, Inv c → runN envs n c = some (.ok res) → Inv res := by
  intro n
  induction n with
  | zero =>
    intro c res hInv h
    unfold runN at h
    simp only [Option.some.injEq, Except.ok.injEq] at h
    subst h
    exact hInv
  | succ k ih =>
    intro c res hInv h
    unfold runN at h
    rcases hs : step (envs k) c with _ | r
    · rw [hs] at h
      exact Option.noConfusion h
    · rcases r with e | cb
      · rw [hs] at h
        simp at h
      · obtain ⟨c2, b2⟩ := cb
        rw [hs] at h
        dsimp only at h
        exact ih c2 res (step_inv (envs k) c c2 b2 (henv k) hInv hs) h

/-- C8: amended.  During execution the program counter stays in
[0, 8195): any state reached by a successful run of the emulator from a
freshly loaded program of bytes, under keyboards that report byte key
values, has pc < 8195 (pc = 8194 is reachable, e.g. by a skip at 8190,
so the spec's claimed interval [0x200, 0xFFF] is wrong on both ends). -/
theorem C8_pc_bound_amended (program : List Nat) (envs : Nat → Env)
    (n : Nat) (res : Cpu)
    (hbytes : ∀ x ∈ program, x < 256)
    (henv : ∀ k, EnvOk (envs k))
    (hrun : runN envs n (loadOrInit program) = some (.ok res)) :
    res.pc < 8195 := by
  have hInv0 : Inv (loadOrInit program) := by
    unfold loadOrInit
    rcases hap : add_program Cpu.init program with _ | r
    · exact init_inv
    · rcases r with e | c'
      · exact init_inv
      · exact add_program_inv hbytes init_inv hap
  have := (runN_inv henv n _ res hInv0 hrun).2.2.1
  omega

/-- Concrete instance: two steps of the loaded program 60FF BFFF end
with pc < 8195. -/
theorem C8_pc_bound_amended_witness :
    (cpuOfRun (runN (fun _ => env0) 2 (loadOrInit [0x60, 0xFF, 0xBF, 0xFF]))
      Cpu.init).pc < 8195 :=
  C8_pc_bound_amended [0x60, 0xFF, 0xBF, 0xFF] (fun _ => env0) 2 _
    (by decide) (fun _ => env0_ok) rfl

end Chip8
